import Mathlib

/-!
Verification development for the risk-constrained position sizing engine,
the per-position exit state machine, and the bar-replay backtest ledger of
the repository.  Python floats are modelled as exact rationals, Python ints
as integers, fallible lookups as Option values.  Each embedded definition
mirrors one Python function; the doc comment names it.
-/

namespace QuantRisk

/-- One maintenance-margin tier as consumed by
quant_futures/risk/engine.py; `maintMarginRatio` is the parsed value of
tier["maintMarginRatio"], `none` when the key is missing or non-numeric
(Python raises there, and the caller catches it). -/
structure MarginTier where
  maintMarginRatio : Option ℚ
  deriving DecidableEq

/-- The fields of quant_futures/data/metadata.py SymbolMeta that the risk
engine reads. -/
structure SymbolMeta where
  step_size : ℚ
  max_leverage : ℤ
  maint_margin_tiers : List MarginTier
  deriving DecidableEq

/-- quant_futures/risk/engine.py RiskConfig. `vol_class_leverage_caps` is
the optional dict, modelled as an association list (empty list = None or
empty dict, both falsy in Python). -/
structure RiskConfig where
  equity_usdt : ℚ
  risk_per_trade_pct : ℚ
  liq_buffer_pct_min : ℚ
  atr_buffer_mult_entry : ℚ
  atr_buffer_mult_sl : ℚ
  vol_class_leverage_caps : List (String × ℚ)
  deriving DecidableEq

/-- quant_futures/risk/engine.py PlannedTrade. -/
structure PlannedTrade where
  symbol : String
  direction : String
  entry : ℚ
  sl : ℚ
  atr : ℚ
  vol_class : String
  deriving DecidableEq

/-- quant_futures/risk/engine.py SizingResult. -/
structure SizingResult where
  notional : ℚ
  quantity : ℚ
  effective_leverage : ℚ
  applied_leverage_param : ℤ
  passes_liq_buffer : Bool
  reasons : List String
  deriving DecidableEq

/-- The maintenance-margin ratio the engine extracts in
RiskEngine._compute_exchange_liq_price: float(tiers[0]["maintMarginRatio"])
when the tier list is non-empty, 0.004 when the list is empty or the
extraction raises. -/
def tierMMR (meta : SymbolMeta) : ℚ :=
  match meta.maint_margin_tiers.head? with
  | some t => t.maintMarginRatio.getD (4/1000)
  | none => 4/1000

/-- RiskEngine._compute_exchange_liq_price.  Always `some` (the Optional
return type of the source is never None).  Division by leverage_param = 0
would raise in Python; callers only reach this with a non-zero parameter
under a positive max_leverage. -/
def compute_exchange_liq_price (meta : SymbolMeta) (direction : String)
    (entry : ℚ) (leverage_param : ℤ) : Option ℚ :=
  let mmr := tierMMR meta
  if direction = "long" then
    some (entry * (1 - 1 / (leverage_param : ℚ)) * (1 - mmr))
  else
    some (entry * (1 + 1 / (leverage_param : ℚ)) * (1 + mmr))

/-- RiskEngine._check_liq_buffer. -/
def check_liq_buffer (cfg : RiskConfig) (trade : PlannedTrade)
    (liq_price : Option ℚ) : Bool × List String :=
  match liq_price with
  | none => (false, ["no_liq_price"])
  | some lp =>
    let entry := trade.entry
    let atr := trade.atr
    let Z := cfg.atr_buffer_mult_entry
    let Y := cfg.atr_buffer_mult_sl
    let min_pct := cfg.liq_buffer_pct_min
    let dist_entry :=
      if trade.direction = "long" then (entry - lp) / entry else (lp - entry) / entry
    let dist_sl :=
      if trade.direction = "long" then
        (if trade.sl > 0 then (trade.sl - lp) / trade.sl else 0)
      else
        (if trade.sl > 0 then (lp - trade.sl) / trade.sl else 0)
    let cond1 : Bool := decide (dist_entry ≥ max (Z * atr / entry) min_pct)
    let cond2 : Bool := decide (dist_sl ≥ Y * atr / max trade.sl (1/1000000000))
    let reasons :=
      (if cond1 then [] else ["entry_liq_buffer_fail"]) ++
      (if cond2 then [] else ["sl_liq_buffer_fail"])
    (cond1 && cond2, if reasons.isEmpty then ["ok"] else reasons)

/-- The leverage-halving re-validation loop of RiskEngine.size_position
(`while not passes and applied_lev_param > 1`).  Returns the final
leverage parameter, pass flag, reasons, liquidation price, and the number
of loop iterations executed.  `Int.ediv lev 2` equals Python's `lev // 2`
for the positive divisor 2. -/
def delev (cfg : RiskConfig) (meta : SymbolMeta) (trade : PlannedTrade)
    (lev : ℤ) (passes : Bool) (reasons : List String) (liq : Option ℚ) :
    ℤ × Bool × List String × Option ℚ × ℕ :=
  if h : passes = false ∧ 1 < lev then
    let lev2 := max 1 (lev / 2)
    let liq2 := compute_exchange_liq_price meta trade.direction trade.entry lev2
    let pr := check_liq_buffer cfg trade liq2
    let out := delev cfg meta trade lev2 pr.1 pr.2 liq2
    (out.1, out.2.1, out.2.2.1, out.2.2.2.1, out.2.2.2.2 + 1)
  else (lev, passes, reasons, liq, 0)
termination_by lev.toNat
decreasing_by
  omega

/-- The vol-class leverage cap resolution inside RiskEngine.size_position:
dict lookup with default 100.0 when the dict is absent/empty or misses the
class. -/
def levCap (cfg : RiskConfig) (vol_class : String) : ℚ :=
  match cfg.vol_class_leverage_caps.lookup vol_class with
  | some c => c
  | none => 100

/-- Lines 58-71 of RiskEngine.size_position: risk budget, raw notional,
effective leverage, and the vol-class cap that only ever reduces notional.
Returns (notional, effective_lev). -/
def initNotionalEff (cfg : RiskConfig) (trade : PlannedTrade) : ℚ × ℚ :=
  let R := cfg.equity_usdt * cfg.risk_per_trade_pct
  let sl_dist := |trade.entry - trade.sl|
  let notional := R / (sl_dist / trade.entry)
  let effective_lev := notional / max cfg.equity_usdt (1/1000000000)
  let cap := levCap cfg trade.vol_class
  if effective_lev > cap then (cap * cfg.equity_usdt, cap) else (notional, effective_lev)

/-- The initial integer leverage parameter of RiskEngine.size_position:
min(int(effective_lev) if effective_lev >= 1 else 1, meta.max_leverage).
Python int() truncates; for values >= 1 that is the floor. -/
def applied0 (cfg : RiskConfig) (meta : SymbolMeta) (trade : PlannedTrade) : ℤ :=
  let eff := (initNotionalEff cfg trade).2
  min (if eff ≥ 1 then ⌊eff⌋ else 1) meta.max_leverage

/-- The liquidation price the sizer computes before entering the
deleveraging loop. -/
def preLiq (cfg : RiskConfig) (meta : SymbolMeta) (trade : PlannedTrade) : Option ℚ :=
  compute_exchange_liq_price meta trade.direction trade.entry (applied0 cfg meta trade)

/-- The full deleveraging-loop output (final leverage, pass flag, reasons,
liquidation price, iteration count) as run by size_position. -/
def loopOut (cfg : RiskConfig) (meta : SymbolMeta) (trade : PlannedTrade) :
    ℤ × Bool × List String × Option ℚ × ℕ :=
  delev cfg meta trade (applied0 cfg meta trade)
    (check_liq_buffer cfg trade (preLiq cfg meta trade)).1
    (check_liq_buffer cfg trade (preLiq cfg meta trade)).2
    (preLiq cfg meta trade)

/-- RiskEngine.size_position, additionally reporting how many iterations
the deleveraging loop executed (second component). -/
def sizeCore (cfg : RiskConfig) (meta : SymbolMeta) (trade : PlannedTrade) :
    SizingResult × ℕ :=
  let sl_dist := |trade.entry - trade.sl|
  if sl_dist ≤ 0 then (⟨0, 0, 0, 1, false, ["invalid_sl_distance"]⟩, 0)
  else
    let ne := initNotionalEff cfg trade
    let lo := loopOut cfg meta trade
    let lev1 := lo.1
    let p1 := lo.2.1
    let r1 := lo.2.2.1
    let liq1 := lo.2.2.2.1
    let steps := lo.2.2.2.2
    let post :=
      if p1 = false then
        let n2 := ne.1 * (1/2)
        let e2 := n2 / max cfg.equity_usdt (1/1000000000)
        let lev2 := if e2 < 1 then (1 : ℤ) else lev1
        let pr2 := check_liq_buffer cfg trade liq1
        (n2, e2, lev2, pr2.1, pr2.2)
      else (ne.1, ne.2, lev1, p1, r1)
    let qty0 := post.1 / trade.entry
    let step := if meta.step_size = 0 then 1/1000 else meta.step_size
    let qty := if step > 0 then (⌊qty0 / step⌋ : ℚ) * step else qty0
    (⟨post.1, qty, post.2.1, post.2.2.1, post.2.2.2.1, post.2.2.2.2⟩, steps)

/-- RiskEngine.size_position (the metadata service is an external
collaborator, modelled as a pure lookup). -/
def size_position (cfg : RiskConfig) (metaLookup : String → SymbolMeta)
    (trade : PlannedTrade) : SizingResult :=
  (sizeCore cfg (metaLookup trade.symbol) trade).1

/-- Number of iterations of the deleveraging loop inside size_position. -/
def sizing_iterations (cfg : RiskConfig) (metaLookup : String → SymbolMeta)
    (trade : PlannedTrade) : ℕ :=
  (sizeCore cfg (metaLookup trade.symbol) trade).2

/-- Modelled from the spec (section 4.2 wording, for comparison with the
source): approximate liquidation price, long = entry x (1 - 1/L) x (1 - mmr),
short = entry x (1 + 1/L) x (1 + mmr). -/
def spec_liq_price (isLong : Bool) (entry mmr : ℚ) (leverageParam : ℤ) : ℚ :=
  if isLong then entry * (1 - 1 / (leverageParam : ℚ)) * (1 - mmr)
  else entry * (1 + 1 / (leverageParam : ℚ)) * (1 + mmr)

end QuantRisk

namespace PyConfig

/-- config.py RiskConfig.max_risk_per_trade. -/
def max_risk_per_trade : ℚ := 1/100

/-- config.py RiskConfig.max_portfolio_risk. -/
def max_portfolio_risk : ℚ := 3/100

/-- config.py RiskConfig.max_concurrent_positions. -/
def max_concurrent_positions : ℕ := 5

/-- config.py RiskConfig.liquidation_buffer_atr_multiplier. -/
def liquidation_buffer_atr_multiplier : ℚ := 3

/-- config.py RiskConfig.liquidation_buffer_percent. -/
def liquidation_buffer_percent : ℚ := 1/20

/-- config.py RiskConfig.sl_liquidation_buffer_atr. -/
def sl_liquidation_buffer_atr : ℚ := 2

/-- config.py TradingConfig.partial_exit_ratio (the identifier is shortened
to part_exit_ratio in this development). -/
def part_exit_ratio : ℚ := 1/2

/-- config.py TradingConfig.trailing_atr_multiplier. -/
def trailing_atr_multiplier : ℚ := 2

/-- config.py TradingConfig.max_trade_duration_hours. -/
def max_trade_duration_hours : ℚ := 48

/-- config.py BacktestConfig.maker_fee. -/
def maker_fee : ℚ := 2/10000

/-- config.py BacktestConfig.funding_interval_hours. -/
def funding_interval_hours : ℚ := 8

end PyConfig

namespace ExitExec

/-- execution/exit_manager.py ExitStrategy (field names shortened from
partial_exit_* to part_exit_*; entry_time is the wall-clock instant
datetime.now() observed at creation, modelled as a rational hour count). -/
structure ExitStrategy where
  symbol : String
  position_type : String
  entry_price : ℚ
  stop_loss : ℚ
  take_profit : ℚ
  trailing_enabled : Bool
  trailing_atr_multiplier : ℚ
  part_exit_enabled : Bool
  part_exit_ratio : ℚ
  part_exit_target : ℚ
  time_based_exit : Bool
  max_duration_hours : ℚ
  entry_time : ℚ
  deriving DecidableEq

/-- execution/exit_manager.py ExitSignal (the auxiliary metadata dict is
omitted; no claim depends on it). -/
structure ExitSignal where
  symbol : String
  exit_type : String
  exit_price : ℚ
  exit_quantity : ℚ
  exit_reason : String
  timestamp : ℚ
  pnl : ℚ
  pnl_percentage : ℚ
  deriving DecidableEq

/-- One entry of ExitManager.partial_exits. -/
structure PartRec where
  executed : Bool
  quantity : ℚ
  price : ℚ
  deriving DecidableEq

/-- The slice of ExitManager state belonging to one symbol: its entries in
active_exits, trailing_stops and partial_exits (the claims and the
engine's run_backtest are per-symbol). -/
structure ExitState where
  strategy : Option ExitStrategy
  trailingStop : Option ℚ
  partRec : Option PartRec
  deriving DecidableEq

/-- State after ExitManager.remove_exit_strategy (or before creation). -/
def emptyExitState : ExitState := ⟨none, none, none⟩

/-- ExitManager.create_exit_strategy.  `now` models datetime.now(). -/
def create_exit_strategy (symbol position_type : String)
    (entry_price stop_loss take_profit : ℚ) (trailing_enabled : Bool)
    (now : ℚ) : ExitState :=
  let target :=
    if position_type = "LONG" then entry_price + (take_profit - entry_price) * (1/2)
    else entry_price - (entry_price - take_profit) * (1/2)
  let strat : ExitStrategy :=
    { symbol := symbol
      position_type := position_type
      entry_price := entry_price
      stop_loss := stop_loss
      take_profit := take_profit
      trailing_enabled := trailing_enabled
      trailing_atr_multiplier := PyConfig.trailing_atr_multiplier
      part_exit_enabled := decide (PyConfig.part_exit_ratio > 0)
      part_exit_ratio := PyConfig.part_exit_ratio
      part_exit_target := target
      time_based_exit := true
      max_duration_hours := PyConfig.max_trade_duration_hours
      entry_time := now }
  { strategy := some strat
    trailingStop := if trailing_enabled then some stop_loss else none
    partRec := if strat.part_exit_enabled then some ⟨false, 0, 0⟩ else none }

/-- ExitManager._check_stop_loss. -/
def check_stop_loss (symbol : String) (current_price current_quantity : ℚ)
    (strategy : ExitStrategy) (now : ℚ) : Option ExitSignal :=
  if strategy.position_type = "LONG" then
    if current_price ≤ strategy.stop_loss then
      some { symbol := symbol, exit_type := "SL", exit_price := current_price,
             exit_quantity := current_quantity, exit_reason := "Stop Loss triggered",
             timestamp := now,
             pnl := (current_price - strategy.entry_price) * current_quantity,
             pnl_percentage := (current_price - strategy.entry_price) / strategy.entry_price }
    else none
  else
    if current_price ≥ strategy.stop_loss then
      some { symbol := symbol, exit_type := "SL", exit_price := current_price,
             exit_quantity := current_quantity, exit_reason := "Stop Loss triggered",
             timestamp := now,
             pnl := (strategy.entry_price - current_price) * current_quantity,
             pnl_percentage := (strategy.entry_price - current_price) / strategy.entry_price }
    else none

/-- ExitManager._check_take_profit. -/
def check_take_profit (symbol : String) (current_price current_quantity : ℚ)
    (strategy : ExitStrategy) (now : ℚ) : Option ExitSignal :=
  if strategy.position_type = "LONG" then
    if current_price ≥ strategy.take_profit then
      some { symbol := symbol, exit_type := "TP", exit_price := current_price,
             exit_quantity := current_quantity, exit_reason := "Take Profit triggered",
             timestamp := now,
             pnl := (current_price - strategy.entry_price) * current_quantity,
             pnl_percentage := (current_price - strategy.entry_price) / strategy.entry_price }
    else none
  else
    if current_price ≤ strategy.take_profit then
      some { symbol := symbol, exit_type := "TP", exit_price := current_price,
             exit_quantity := current_quantity, exit_reason := "Take Profit triggered",
             timestamp := now,
             pnl := (strategy.entry_price - current_price) * current_quantity,
             pnl_percentage := (strategy.entry_price - current_price) / strategy.entry_price }
    else none

/-- ExitManager._check_partial_exit: may mark the partial record executed
and move the strategy stop to break-even. -/
def check_part_exit (st : ExitState) (current_price current_quantity : ℚ)
    (strategy : ExitStrategy) (now : ℚ) : ExitState × Option ExitSignal :=
  match st.partRec with
  | none => (st, none)
  | some pr =>
    if pr.executed then (st, none)
    else if strategy.position_type = "LONG" then
      if current_price ≥ strategy.part_exit_target then
        let exit_quantity := current_quantity * strategy.part_exit_ratio
        let st2 : ExitState :=
          { st with
            partRec := some ⟨true, exit_quantity, current_price⟩,
            strategy := some { strategy with stop_loss := strategy.entry_price } }
        (st2, some { symbol := strategy.symbol, exit_type := "PARTIAL",
                     exit_price := current_price, exit_quantity := exit_quantity,
                     exit_reason := "Partial exit at R1 target", timestamp := now,
                     pnl := (current_price - strategy.entry_price) * exit_quantity,
                     pnl_percentage := (current_price - strategy.entry_price) / strategy.entry_price })
      else (st, none)
    else
      if current_price ≤ strategy.part_exit_target then
        let exit_quantity := current_quantity * strategy.part_exit_ratio
        let st2 : ExitState :=
          { st with
            partRec := some ⟨true, exit_quantity, current_price⟩,
            strategy := some { strategy with stop_loss := strategy.entry_price } }
        (st2, some { symbol := strategy.symbol, exit_type := "PARTIAL",
                     exit_price := current_price, exit_quantity := exit_quantity,
                     exit_reason := "Partial exit at R1 target", timestamp := now,
                     pnl := (strategy.entry_price - current_price) * exit_quantity,
                     pnl_percentage := (strategy.entry_price - current_price) / strategy.entry_price })
      else (st, none)

/-- ExitManager._check_trailing_stop: ratchets the stored trailing level
(up for LONG, down otherwise), then tests the trigger against the stored
level.  When trailing_stops has no entry for the symbol the trigger read
raises KeyError, which the handler turns into no signal and no mutation. -/
def check_trailing_stop (st : ExitState) (current_price current_quantity : ℚ)
    (strategy : ExitStrategy) (atr : ℚ) (now : ℚ) : ExitState × Option ExitSignal :=
  if strategy.trailing_enabled = false then (st, none)
  else if strategy.position_type = "LONG" then
    let new_trailing := current_price - strategy.trailing_atr_multiplier * atr
    match st.trailingStop with
    | none => (st, none)
    | some tl =>
      let upd := decide (new_trailing > tl)
      let st2 : ExitState :=
        if upd then
          { st with
            trailingStop := some new_trailing,
            strategy := some { strategy with stop_loss := new_trailing } }
        else st
      let tl2 := if upd then new_trailing else tl
      if current_price ≤ tl2 then
        (st2, some { symbol := strategy.symbol, exit_type := "TRAILING",
                     exit_price := current_price, exit_quantity := current_quantity,
                     exit_reason := "Trailing stop triggered", timestamp := now,
                     pnl := (current_price - strategy.entry_price) * current_quantity,
                     pnl_percentage := (current_price - strategy.entry_price) / strategy.entry_price })
      else (st2, none)
  else
    let new_trailing := current_price + strategy.trailing_atr_multiplier * atr
    match st.trailingStop with
    | none => (st, none)
    | some tl =>
      let upd := decide (new_trailing < tl)
      let st2 : ExitState :=
        if upd then
          { st with
            trailingStop := some new_trailing,
            strategy := some { strategy with stop_loss := new_trailing } }
        else st
      let tl2 := if upd then new_trailing else tl
      if current_price ≥ tl2 then
        (st2, some { symbol := strategy.symbol, exit_type := "TRAILING",
                     exit_price := current_price, exit_quantity := current_quantity,
                     exit_reason := "Trailing stop triggered", timestamp := now,
                     pnl := (strategy.entry_price - current_price) * current_quantity,
                     pnl_percentage := (strategy.entry_price - current_price) / strategy.entry_price })
      else (st2, none)

/-- ExitManager._check_time_based_exit.  `now` models datetime.now(); the
source interpolates the duration into the reason text, which is modelled
by the fixed prefix of that text. -/
def check_time_based_exit (current_price current_quantity : ℚ)
    (strategy : ExitStrategy) (now : ℚ) : Option ExitSignal :=
  if strategy.time_based_exit = false then none
  else
    let duration := now - strategy.entry_time
    if duration ≥ strategy.max_duration_hours then
      some { symbol := strategy.symbol, exit_type := "TIME",
             exit_price := current_price, exit_quantity := current_quantity,
             exit_reason := "Time-based exit after", timestamp := now,
             pnl := if strategy.position_type = "LONG" then
                 (current_price - strategy.entry_price) * current_quantity
               else (strategy.entry_price - current_price) * current_quantity,
             pnl_percentage := if strategy.position_type = "LONG" then
                 (current_price - strategy.entry_price) / strategy.entry_price
               else (strategy.entry_price - current_price) / strategy.entry_price }
    else none

/-- Python truthiness of the optional atr argument (None and 0.0 are
falsy). -/
def atrTruthy (atr : Option ℚ) : Bool :=
  match atr with
  | some x => decide (x ≠ 0)
  | none => false

/-- ExitManager.check_exit_signals: priority-ordered evaluation returning
the mutated state and the emitted signals.  Stop-loss and take-profit
return immediately; partial, trailing and time-based signals accumulate in
source order. -/
def check_exit_signals (st : ExitState) (current_price current_quantity : ℚ)
    (atr : Option ℚ) (now : ℚ) : ExitState × List ExitSignal :=
  match st.strategy with
  | none => (st, [])
  | some strategy =>
    match check_stop_loss strategy.symbol current_price current_quantity strategy now with
    | some sl => (st, [sl])
    | none =>
      match check_take_profit strategy.symbol current_price current_quantity strategy now with
      | some tp => (st, [tp])
      | none =>
        let pstep :=
          if strategy.part_exit_enabled then
            check_part_exit st current_price current_quantity strategy now
          else (st, none)
        let st1 := pstep.1
        let strat1 := st1.strategy.getD strategy
        let tstep :=
          if strat1.trailing_enabled && atrTruthy atr then
            check_trailing_stop st1 current_price current_quantity strat1 (atr.getD 0) now
          else (st1, none)
        let st2 := tstep.1
        let strat2 := st2.strategy.getD strat1
        let timesig := check_time_based_exit current_price current_quantity strat2 now
        (st2, pstep.2.toList ++ tstep.2.toList ++ timesig.toList)

/-- ExitManager.manual_exit. -/
def manual_exit (st : ExitState) (current_price current_quantity : ℚ)
    (reason : String) (now : ℚ) : Option ExitSignal :=
  match st.strategy with
  | none => none
  | some strategy =>
    some { symbol := strategy.symbol, exit_type := "MANUAL",
           exit_price := current_price, exit_quantity := current_quantity,
           exit_reason := reason, timestamp := now,
           pnl := if strategy.position_type = "LONG" then
               (current_price - strategy.entry_price) * current_quantity
             else (strategy.entry_price - current_price) * current_quantity,
           pnl_percentage := if strategy.position_type = "LONG" then
               (current_price - strategy.entry_price) / strategy.entry_price
             else (strategy.entry_price - current_price) / strategy.entry_price }

/-- The state transition of one exit evaluation (the first component of
check_exit_signals); input i = (price, quantity, atr, now). -/
def evalStep (st : ExitState) (i : ℚ × ℚ × Option ℚ × ℚ) : ExitState :=
  (check_exit_signals st i.1 i.2.1 i.2.2.1 i.2.2.2).1

end ExitExec

namespace LegacyRisk

/-- One entry of SymbolMetadata.maintenance_margin_tiers as read by
risk/risk_manager.py (data/symbol_metadata.py get_maintenance_margin). -/
structure MMTier where
  leverage : ℤ
  notionalFloor : ℚ
  notionalCap : ℚ
  maintenanceMarginRate : ℚ
  deriving DecidableEq

/-- The fields of data/symbol_metadata.py SymbolMetadata that the risk
manager and backtest engine read. -/
structure SymbolMetadata where
  tick_size : ℚ
  step_size : ℚ
  maintenance_margin_tiers : List MMTier
  deriving DecidableEq

/-- risk/risk_manager.py PositionSizing. -/
structure PositionSizing where
  symbol : String
  entry_price : ℚ
  stop_loss : ℚ
  position_size_usdt : ℚ
  quantity : ℚ
  leverage : ℤ
  risk_amount : ℚ
  risk_percentage : ℚ
  liquidation_price : ℚ
  distance_to_liquidation : ℚ
  is_valid : Bool
  reason : String
  deriving DecidableEq

/-- data/symbol_metadata.py SymbolMetadata.get_maintenance_margin: first
tier matching the leverage whose notional bracket contains the notional,
else 0.0. -/
def get_maintenance_margin (meta : SymbolMetadata) (leverage : ℤ)
    (notional : ℚ) : ℚ :=
  match meta.maintenance_margin_tiers.find? (fun t =>
      decide (t.leverage = leverage) && decide (t.notionalFloor ≤ notional) &&
      decide (notional ≤ t.notionalCap)) with
  | some t => t.maintenanceMarginRate
  | none => 0

/-- Python 3 round() (banker's rounding, half to even). -/
def pyRound (x : ℚ) : ℤ :=
  let f := ⌊x⌋
  let r := x - (f : ℚ)
  if r < 1/2 then f
  else if 1/2 < r then f + 1
  else if f % 2 = 0 then f else f + 1

/-- Python int() on a float: truncation toward zero. -/
def pyTrunc (x : ℚ) : ℤ := if 0 ≤ x then ⌊x⌋ else ⌈x⌉

/-- RiskManager._calculate_liquidation_price.  With leverage = 0 the
source raises ZeroDivisionError inside its own try block and falls back to
the 10 percent-buffer prices. -/
def calculate_liquidation_price (meta : SymbolMetadata) (entry_price : ℚ)
    (direction : String) (leverage : ℤ) (position_size_usdt : ℚ) : ℚ :=
  if leverage = 0 then
    if direction = "LONG" then entry_price * (9/10) else entry_price * (11/10)
  else
    let mm0 := get_maintenance_margin meta leverage position_size_usdt
    let mm := if mm0 = 0 then (4/1000 : ℚ) else mm0
    if direction = "LONG" then entry_price * (1 - 1/(leverage : ℚ) + mm)
    else entry_price * (1 + 1/(leverage : ℚ) - mm)

/-- RiskManager._validate_liquidation_buffer (reason strings without the
interpolated numbers; entry_price = 0 would raise inside the try block and
return the "Validation error" reason). -/
def validate_liquidation_buffer (entry_price stop_loss liquidation_price
    distance_to_liquidation : ℚ) : Bool × String :=
  if entry_price = 0 then (false, "Validation error")
  else
    let atr := entry_price * (2/100)
    let required_buffer_atr := PyConfig.liquidation_buffer_atr_multiplier * atr / entry_price
    let required_buffer := max required_buffer_atr PyConfig.liquidation_buffer_percent
    if distance_to_liquidation < required_buffer then
      (false, "Distance to liquidation below required")
    else
      let sl_distance_from_liq :=
        if entry_price > stop_loss then (stop_loss - liquidation_price) / entry_price
        else (liquidation_price - stop_loss) / entry_price
      let required_sl_buffer := PyConfig.sl_liquidation_buffer_atr * atr / entry_price
      if sl_distance_from_liq < required_sl_buffer then
        (false, "Stop loss too close to liquidation")
      else (true, "Valid")

/-- The invalid PositionSizing produced by the except branch of
RiskManager.calculate_position_size (reason text without interpolation). -/
def errorSizing (symbol : String) (entry_price stop_loss risk_percentage : ℚ) :
    PositionSizing :=
  ⟨symbol, entry_price, stop_loss, 0, 0, 0, 0, risk_percentage, 0, 0, false, "Error"⟩

/-- RiskManager.calculate_position_size.  The guard condition collects the
division-by-zero points of the float arithmetic (sl_distance, entry_price,
step_size, equity), each of which would raise in Python and be caught by
the function's except branch.  max_leverage is
SymbolMetadataManager.get_max_leverage_for_symbol, an external
classification lookup passed in as a value. -/
def calculate_position_size (meta : SymbolMetadata) (max_leverage : ℤ)
    (symbol : String) (entry_price stop_loss equity risk_percentage : ℚ) :
    PositionSizing :=
  let risk_amount := equity * risk_percentage
  let sl_distance :=
    if entry_price > stop_loss then entry_price - stop_loss else stop_loss - entry_price
  let direction := if entry_price > stop_loss then "LONG" else "SHORT"
  if sl_distance = 0 ∨ entry_price = 0 ∨ meta.step_size = 0 ∨ equity = 0 then
    errorSizing symbol entry_price stop_loss risk_percentage
  else
    let position_size := risk_amount / (sl_distance / entry_price)
    let quantity := position_size / entry_price
    let step := meta.step_size
    let quantity := (pyRound (quantity / step) : ℚ) * step
    let position_size := quantity * entry_price
    let effective_leverage := position_size / equity
    let leverage := min (pyTrunc effective_leverage) max_leverage
    let adj :=
      if (leverage : ℚ) < effective_leverage then
        let ps := equity * (leverage : ℚ)
        let q := ps / entry_price
        let q := (pyRound (q / step) : ℚ) * step
        (q * entry_price, q)
      else (position_size, quantity)
    let position_size := adj.1
    let quantity := adj.2
    let liquidation_price :=
      calculate_liquidation_price meta entry_price direction leverage position_size
    let distance_to_liquidation :=
      if direction = "LONG" then (entry_price - liquidation_price) / entry_price
      else (liquidation_price - entry_price) / entry_price
    let vr := validate_liquidation_buffer entry_price stop_loss liquidation_price
      distance_to_liquidation
    ⟨symbol, entry_price, stop_loss, position_size, quantity, leverage, risk_amount,
     risk_percentage, liquidation_price, distance_to_liquidation, vr.1, vr.2⟩

/-- RiskManager.check_portfolio_risk restricted to how BacktestEngine uses
it: the engine never registers positions with the global RiskManager, so
the sums over current_positions are zero and only the risk-percentage
bound can bind. -/
def check_portfolio_risk_ok (equity new_position_risk : ℚ) : Bool :=
  let risk_percentage := if equity > 0 then new_position_risk / equity else 0
  decide (risk_percentage ≤ PyConfig.max_portfolio_risk) &&
  decide ((0 : ℕ) < PyConfig.max_concurrent_positions) &&
  decide ((0 : ℚ) < 8/10)

end LegacyRisk

namespace Backtest

/-- One OHLCV bar as consumed by BacktestEngine.run_backtest: the index
timestamp (modelled in hours), the low/high/close prices and the optional
atr column.  The engine reads only time, close and atr; low and high are
carried to make that observable. -/
structure Bar where
  time : ℚ
  low : ℚ
  high : ℚ
  close : ℚ
  atr : Option ℚ
  deriving DecidableEq

/-- The fields of a signal_engine signal that BacktestEngine reads
(signal generation is an external collaborator). -/
structure Signal where
  signal_type : String
  entry_price : ℚ
  stop_loss : ℚ
  take_profit : ℚ
  signal_strength : ℚ
  deriving DecidableEq

/-- One entry of BacktestEngine.current_positions. -/
structure Position where
  entry_time : ℚ
  entry_price : ℚ
  quantity : ℚ
  position_type : String
  stop_loss : ℚ
  take_profit : ℚ
  fees_paid : ℚ
  slippage : ℚ
  signal_strength : ℚ
  deriving DecidableEq

/-- backtest/backtest_engine.py BacktestTrade (metadata dict omitted). -/
structure BTrade where
  symbol : String
  entry_time : ℚ
  exit_time : ℚ
  entry_price : ℚ
  exit_price : ℚ
  quantity : ℚ
  position_type : String
  pnl : ℚ
  pnl_percentage : ℚ
  fees : ℚ
  funding_costs : ℚ
  slippage : ℚ
  exit_reason : String
  signal_strength : ℚ
  deriving DecidableEq

/-- One entry of BacktestEngine.equity_curve. -/
structure Snapshot where
  timestamp : ℚ
  equity : ℚ
  open_positions : ℕ
  deriving DecidableEq

/-- The mutable state of one single-symbol BacktestEngine run: equity, the
symbol's slot of current_positions, the trade list, the equity curve, the
per-symbol ExitManager state, and the stream of pending
np.random.normal(1, 0.2) draws (the seedable randomness oracle). -/
structure EngineState where
  equity : ℚ
  position : Option Position
  trades : List BTrade
  equity_curve : List Snapshot
  exitState : ExitExec.ExitState
  rands : List ℚ
  deriving DecidableEq

/-- Draw the next random factor (an exhausted oracle yields 1). -/
def popRand (st : EngineState) : ℚ × EngineState :=
  match st.rands with
  | [] => (1, st)
  | r :: rest => (r, { st with rands := rest })

/-- BacktestEngine._calculate_slippage. -/
def calculate_slippage (meta : LegacyRisk.SymbolMetadata) (price quantity rand : ℚ) : ℚ :=
  let slippage_factor := min (quantity * price / 1000000) (1/1000)
  let slippage := slippage_factor * rand * meta.tick_size
  max slippage meta.tick_size

/-- BacktestEngine._calculate_fees. -/
def calculate_fees (notional_value : ℚ) : ℚ :=
  notional_value * PyConfig.maker_fee

/-- BacktestEngine._calculate_funding_costs: duration since entry in
hours, divided by the funding interval, times the 0.0001 average funding
rate and the position value at entry; 0 when the symbol has no open
position. -/
def calculate_funding_costs (st : EngineState) (entry_time current_time : ℚ) : ℚ :=
  match st.position with
  | some position =>
    (position.entry_price * position.quantity) * (1/10000) *
      ((current_time - entry_time) / PyConfig.funding_interval_hours)
  | none => 0

/-- BacktestEngine._execute_signal.  wallNow models datetime.now() for the
ExitStrategy creation. -/
def execute_signal (meta : LegacyRisk.SymbolMetadata) (max_leverage : ℤ)
    (symbol : String) (wallNow : ℚ) (st : EngineState) (signal : Signal)
    (bar : Bar) : EngineState :=
  let current_price := bar.close
  let sizing := LegacyRisk.calculate_position_size meta max_leverage symbol
    signal.entry_price signal.stop_loss st.equity PyConfig.max_risk_per_trade
  if sizing.is_valid = false then st
  else if LegacyRisk.check_portfolio_risk_ok st.equity sizing.risk_amount = false then st
  else
    let rs := popRand st
    let slippage := calculate_slippage meta current_price sizing.quantity rs.1
    let fees := calculate_fees sizing.position_size_usdt
    let entry_price :=
      if signal.signal_type = "LONG" then current_price + slippage
      else current_price - slippage
    let pos : Position := ⟨bar.time, entry_price, sizing.quantity, signal.signal_type,
      signal.stop_loss, signal.take_profit, fees, slippage, signal.signal_strength⟩
    { rs.2 with
      position := some pos
      trades := rs.2.trades
      exitState := ExitExec.create_exit_strategy symbol signal.signal_type entry_price
        signal.stop_loss signal.take_profit true wallNow
      equity := rs.2.equity - fees }

/-- BacktestEngine._execute_exit.  A missing position means the
current_positions lookup raises KeyError, caught by the handler (state
unchanged); a zero entry notionial would raise at the pnl_percentage
division after the random draw, leaving everything else unchanged. -/
def execute_exit (meta : LegacyRisk.SymbolMetadata) (st : EngineState)
    (exit_signal : ExitExec.ExitSignal) (bar : Bar) : EngineState :=
  match st.position with
  | none => st
  | some position =>
    let rs := popRand st
    let slippage := calculate_slippage meta bar.close exit_signal.exit_quantity rs.1
    let fees := calculate_fees (exit_signal.exit_price * exit_signal.exit_quantity)
    let funding_costs := calculate_funding_costs rs.2 position.entry_time bar.time
    let exit_price :=
      if position.position_type = "LONG" then bar.close - slippage
      else bar.close + slippage
    let pnl :=
      if position.position_type = "LONG" then
        (exit_price - position.entry_price) * exit_signal.exit_quantity
      else (position.entry_price - exit_price) * exit_signal.exit_quantity
    if position.entry_price * exit_signal.exit_quantity = 0 then rs.2
    else
      let trade : BTrade := ⟨exit_signal.symbol, position.entry_time, bar.time,
        position.entry_price, exit_price, exit_signal.exit_quantity,
        position.position_type, pnl,
        pnl / (position.entry_price * exit_signal.exit_quantity),
        position.fees_paid + fees, funding_costs, position.slippage + slippage,
        exit_signal.exit_reason, position.signal_strength⟩
      { rs.2 with
        trades := rs.2.trades ++ [trade]
        equity := rs.2.equity + pnl - fees - funding_costs
        position := none
        exitState := ExitExec.emptyExitState }

/-- BacktestEngine._check_exits: evaluate the exit state machine at the
bar close (atr defaulting to 2 percent of the close) and execute every
returned signal in order. -/
def check_exits (meta : LegacyRisk.SymbolMetadata) (wallNow : ℚ)
    (st : EngineState) (bar : Bar) : EngineState :=
  match st.position with
  | none => st
  | some position =>
    let current_price := bar.close
    let atr := bar.atr.getD (current_price * (2/100))
    let out := ExitExec.check_exit_signals st.exitState current_price
      position.quantity (some atr) wallNow
    let st1 := { st with exitState := out.1 }
    out.2.foldl (fun s sig => execute_exit meta s sig bar) st1

/-- BacktestEngine._apply_funding_costs. -/
def apply_funding_costs (st : EngineState) (current_time : ℚ) : EngineState :=
  match st.position with
  | some position =>
    { st with equity := st.equity - calculate_funding_costs st position.entry_time current_time }
  | none => st

/-- One iteration of the bar loop in BacktestEngine.run_backtest: equity
snapshot, exit checks, signal execution (skipped on the first bar, and for
each signal only when no position is open), then funding accrual.  Signal
generation and filtering are external collaborators; sigs is the filtered
signal list of this bar. -/
def process_bar (meta : LegacyRisk.SymbolMetadata) (max_leverage : ℤ)
    (symbol : String) (wallNow : ℚ) (st : EngineState) (bar : Bar) (i : ℕ)
    (sigs : List Signal) : EngineState :=
  let snap : Snapshot := ⟨bar.time, st.equity, if st.position.isSome then 1 else 0⟩
  let st0 := { st with equity_curve := st.equity_curve ++ [snap] }
  let st1 := check_exits meta wallNow st0 bar
  let st2 :=
    if 0 < i then
      sigs.foldl (fun s sig =>
        if s.position.isSome then s
        else execute_signal meta max_leverage symbol wallNow s sig bar) st1
    else st1
  apply_funding_costs st2 bar.time

/-- The bar loop of BacktestEngine.run_backtest. -/
def run_bars (meta : LegacyRisk.SymbolMetadata) (max_leverage : ℤ)
    (symbol : String) (wallNow : ℚ) (st : EngineState) (bars : List Bar)
    (sigss : List (List Signal)) (i : ℕ) : EngineState :=
  match bars with
  | [] => st
  | b :: bs =>
    let st1 := process_bar meta max_leverage symbol wallNow st b i (sigss.headD [])
    run_bars meta max_leverage symbol wallNow st1 bs (sigss.tail) (i + 1)

/-- BacktestEngine._close_all_positions at the final bar. -/
def close_all_positions (meta : LegacyRisk.SymbolMetadata) (wallNow : ℚ)
    (st : EngineState) (last_bar : Bar) : EngineState :=
  match st.position with
  | none => st
  | some position =>
    match ExitExec.manual_exit st.exitState last_bar.close position.quantity
      "Backtest end" wallNow with
    | none => st
    | some sig => execute_exit meta st sig last_bar

/-- The state produced by BacktestEngine.run_backtest just before result
aggregation: fresh state, bar loop, then end-of-run liquidation (an empty
bar list short-circuits to the fresh state, as the empty-data branch
returns the empty result). -/
def run_backtest_state (meta : LegacyRisk.SymbolMetadata) (max_leverage : ℤ)
    (symbol : String) (wallNow : ℚ) (initial_equity : ℚ) (bars : List Bar)
    (sigss : List (List Signal)) (rands : List ℚ) : EngineState :=
  let st0 : EngineState := ⟨initial_equity, none, [], [], ExitExec.emptyExitState, rands⟩
  match bars with
  | [] => st0
  | b :: _ =>
    let stEnd := run_bars meta max_leverage symbol wallNow st0 bars sigss 0
    close_all_positions meta wallNow stEnd (bars.getLastD b)

end Backtest

namespace Backtest

/-- backtest/backtest_engine.py BacktestResult (metadata dict omitted;
avg_trade_duration is the timedelta in hours; profit_factor is none when
the source computes float infinity). -/
structure BacktestResult where
  total_trades : ℕ
  winning_trades : ℕ
  losing_trades : ℕ
  win_rate : ℚ
  total_pnl : ℚ
  total_fees : ℚ
  total_funding : ℚ
  total_slippage : ℚ
  max_drawdown : ℚ
  sharpe_ratio : ℝ
  sortino_ratio : ℝ
  calmar_ratio : ℚ
  avg_trade_duration : ℚ
  avg_win : ℚ
  avg_loss : ℚ
  profit_factor : Option ℚ
  max_consecutive_losses : ℕ
  trades : List BTrade
  equity_curve : List Snapshot

/-- BacktestEngine._create_empty_result. -/
def create_empty_result : BacktestResult :=
  { total_trades := 0, winning_trades := 0, losing_trades := 0, win_rate := 0,
    total_pnl := 0, total_fees := 0, total_funding := 0, total_slippage := 0,
    max_drawdown := 0, sharpe_ratio := 0, sortino_ratio := 0, calmar_ratio := 0,
    avg_trade_duration := 0, avg_win := 0, avg_loss := 0, profit_factor := some 0,
    max_consecutive_losses := 0, trades := [], equity_curve := [] }

/-- np.mean over a rational list (callers guard emptiness as the source
does). -/
def meanQ (l : List ℚ) : ℚ := l.sum / (l.length : ℚ)

/-- pandas Series.std (ddof = 1): none models the NaN produced for fewer
than two values. -/
noncomputable def stdQ (l : List ℚ) : Option ℝ :=
  if 2 ≤ l.length then
    some (Real.sqrt (((l.map (fun x => (x - meanQ l) ^ 2)).sum / ((l.length : ℚ) - 1) : ℚ)))
  else none

/-- pandas pct_change of the equity column, without the leading NaN that
mean/std skip. -/
def pctChanges : List ℚ → List ℚ
  | [] => []
  | [_] => []
  | a :: b :: rest => (b / a - 1) :: pctChanges (b :: rest)

/-- The drawdown column: equity against its expanding maximum. -/
def ddGo (peak : ℚ) : List ℚ → List ℚ
  | [] => []
  | e :: rest =>
    let p := max peak e
    (e - p) / p :: ddGo p rest

/-- Drawdown series of an equity curve. -/
def drawdowns (equities : List ℚ) : List ℚ :=
  match equities with
  | [] => []
  | e :: _ => ddGo e equities

/-- pandas Series.min over a nonempty rational list (0 for the guarded
empty case). -/
def minQ (l : List ℚ) : ℚ :=
  match l with
  | [] => 0
  | x :: xs => xs.foldl min x

/-- The consecutive-loss scan at the end of BacktestEngine._calculate_results. -/
def maxConsecLosses (trades : List BTrade) : ℕ :=
  (trades.foldl
    (fun (p : ℕ × ℕ) t => if t.pnl < 0 then (p.1 + 1, max p.2 (p.1 + 1)) else (0, p.2))
    (0, 0)).2

/-- BacktestEngine._calculate_results: the zero-trade branch returns the
empty result; otherwise the metrics are aggregated from the trade list and
equity curve (pandas NaN propagation for degenerate std is modelled by the
Option returned from stdQ). -/
noncomputable def calculate_results (initial_equity : ℚ) (trades : List BTrade)
    (curve : List Snapshot) : BacktestResult :=
  if trades = [] then create_empty_result
  else
    let total_trades := trades.length
    let winners := trades.filter (fun t => decide (t.pnl > 0))
    let losers := trades.filter (fun t => decide (t.pnl < 0))
    let win_rate := if total_trades > 0 then (winners.length : ℚ) / total_trades else 0
    let total_pnl := (trades.map (·.pnl)).sum
    let total_fees := (trades.map (·.fees)).sum
    let total_funding := (trades.map (·.funding_costs)).sum
    let total_slippage := (trades.map (·.slippage)).sum
    let equities := curve.map (·.equity)
    let max_drawdown := minQ (drawdowns equities)
    let returns := pctChanges equities
    let avg_return := meanQ returns
    let sharpe_ratio : ℝ :=
      match stdQ returns with
      | some s => if s > 0 then (avg_return : ℝ) / s * Real.sqrt 252 else 0
      | none => 0
    let downside := returns.filter (fun r => decide (r < 0))
    let sortino_ratio : ℝ :=
      match stdQ downside with
      | some s => if s > 0 then (avg_return : ℝ) / s * Real.sqrt 252 else 0
      | none => 0
    let calmar_ratio :=
      if max_drawdown ≠ 0 then (total_pnl / initial_equity) / |max_drawdown| else 0
    let avg_trade_duration := meanQ (trades.map (fun t => t.exit_time - t.entry_time))
    let avg_win := if winners ≠ [] then meanQ (winners.map (·.pnl)) else 0
    let avg_loss := if losers ≠ [] then meanQ (losers.map (·.pnl)) else 0
    let profit_factor : Option ℚ :=
      if avg_loss ≠ 0 then some |avg_win * winners.length / (avg_loss * losers.length)|
      else none
    { total_trades := total_trades, winning_trades := winners.length,
      losing_trades := losers.length, win_rate := win_rate, total_pnl := total_pnl,
      total_fees := total_fees, total_funding := total_funding,
      total_slippage := total_slippage, max_drawdown := max_drawdown,
      sharpe_ratio := sharpe_ratio, sortino_ratio := sortino_ratio,
      calmar_ratio := calmar_ratio, avg_trade_duration := avg_trade_duration,
      avg_win := avg_win, avg_loss := avg_loss, profit_factor := profit_factor,
      max_consecutive_losses := maxConsecLosses trades, trades := trades,
      equity_curve := curve }

end Backtest


namespace Fixtures

/-- Metadata fixture for the backtest runs: tick 0.1, step 1, one margin
tier (leverage 2, bracket [0, 1e9], rate 0.004). -/
def meta1 : LegacyRisk.SymbolMetadata := ⟨1/10, 1, [⟨2, 0, 1000000000, 1/250⟩]⟩

/-- A long proposal: entry 1000, stop 995, take-profit 1100. -/
def sigC1 : Backtest.Signal := ⟨"LONG", 1000, 995, 1100, 1⟩

/-- Three hourly bars; the position opened at bar 1 is never exited by
price action. -/
def barsC1 : List Backtest.Bar :=
  [⟨0, 990, 1010, 1000, some 1⟩, ⟨1, 990, 1010, 1000, some 1⟩, ⟨2, 990, 1010, 1001, some 1⟩]

/-- Ledger state of the three-bar run that opens one long at bar 1 and
force-closes it at the end of bar 2. -/
def runC1 : Backtest.EngineState :=
  Backtest.run_backtest_state meta1 3 "BTCUSDT" 0 10000 barsC1 [[], [sigC1], []] [1, 1]

/-- The single closed trade of runC1. -/
def runC1trade : Backtest.BTrade :=
  ⟨"BTCUSDT", 1, 2, 10001/10, 10009/10, 20, "LONG", 16, 8/10001, 2001/250, 10001/40000,
   1/5, "Backtest end", 1⟩

/-- The final ledger state of runC1, written out. -/
def runC1lit : Backtest.EngineState :=
  ⟨200149919/20000, none, [runC1trade],
   [⟨0, 10000, 0⟩, ⟨1, 10000, 0⟩, ⟨2, 9996, 1⟩], ExitExec.emptyExitState, []⟩

/-- Three hourly bars whose last close 1051 crosses the partial-exit
target 1050.05 while staying between stop 995 and take-profit 1100. -/
def barsC8 : List Backtest.Bar :=
  [⟨0, 990, 1010, 1000, some 1⟩, ⟨1, 990, 1010, 1000, some 1⟩, ⟨2, 990, 1060, 1051, some 1⟩]

/-- Ledger state of the run whose only exit signal is the partial exit at
bar 2. -/
def runC8 : Backtest.EngineState :=
  Backtest.run_backtest_state meta1 3 "BTCUSDT" 0 10000 barsC8 [[], [sigC1], []] [1, 1]

/-- The single recorded trade of runC8: the PARTIAL exit of half the
20-contract position. -/
def runC8trade : Backtest.BTrade :=
  ⟨"BTCUSDT", 1, 2, 10001/10, 10509/10, 10, "LONG", 508, 508/10001, 3051/500, 10001/40000,
   1/5, "Partial exit at R1 target", 1⟩

/-- The final ledger state of runC8, written out. -/
def runC8lit : Backtest.EngineState :=
  ⟨420065919/40000, none, [runC8trade],
   [⟨0, 10000, 0⟩, ⟨1, 10000, 0⟩, ⟨2, 9996, 1⟩], ExitExec.emptyExitState, []⟩

/-- Engine risk-config fixture for the sizer claims: equity 1000, 1
percent risk, default buffer parameters, no vol-class caps. -/
def cfgW : QuantRisk.RiskConfig := ⟨1000, 1/100, 1/50, 3, 3/2, []⟩

/-- Symbol-meta fixture: step 0.5, max leverage 10, no margin tiers. -/
def metaW : QuantRisk.SymbolMeta := ⟨1/2, 10, []⟩

/-- A benign long trade: entry 100, stop 95, atr 1. -/
def tradeW : QuantRisk.PlannedTrade := ⟨"BTCUSDT", "long", 100, 95, 1, "A"⟩

/-- Symbol-meta fixture with max leverage 8 and no margin tiers. -/
def metaC6 : QuantRisk.SymbolMeta := ⟨1/2, 8, []⟩

/-- A long trade whose atr 10000 makes both liquidation-buffer conditions
unsatisfiable at every leverage. -/
def tradeC6 : QuantRisk.PlannedTrade := ⟨"X", "long", 100, 95, 10000, "A"⟩

end Fixtures

/-- Evaluation of runC1 to its literal final state. -/
theorem runC1_state : Fixtures.runC1 = Fixtures.runC1lit := by
  norm_num only [Fixtures.runC1, Fixtures.runC1lit, Fixtures.runC1trade, Fixtures.barsC1,
    Fixtures.sigC1, Fixtures.meta1, Backtest.run_backtest_state, Backtest.run_bars,
    Backtest.process_bar, Backtest.check_exits, Backtest.execute_exit, Backtest.execute_signal,
    Backtest.apply_funding_costs, Backtest.close_all_positions, Backtest.popRand,
    Backtest.calculate_slippage, Backtest.calculate_fees, Backtest.calculate_funding_costs,
    LegacyRisk.calculate_position_size, LegacyRisk.calculate_liquidation_price,
    LegacyRisk.validate_liquidation_buffer, LegacyRisk.get_maintenance_margin,
    LegacyRisk.errorSizing, LegacyRisk.check_portfolio_risk_ok, LegacyRisk.pyRound,
    LegacyRisk.pyTrunc, ExitExec.check_exit_signals, ExitExec.check_stop_loss,
    ExitExec.check_take_profit, ExitExec.check_part_exit, ExitExec.check_trailing_stop,
    ExitExec.check_time_based_exit, ExitExec.manual_exit, ExitExec.create_exit_strategy,
    ExitExec.emptyExitState, ExitExec.atrTruthy, PyConfig.max_risk_per_trade,
    PyConfig.max_portfolio_risk, PyConfig.max_concurrent_positions,
    PyConfig.liquidation_buffer_atr_multiplier, PyConfig.liquidation_buffer_percent,
    PyConfig.sl_liquidation_buffer_atr, PyConfig.part_exit_ratio,
    PyConfig.trailing_atr_multiplier, PyConfig.max_trade_duration_hours, PyConfig.maker_fee,
    PyConfig.funding_interval_hours,
    List.foldl_cons, List.foldl_nil, List.headD, List.tail_cons, List.map_cons, List.map_nil,
    List.cons_append, List.nil_append, List.sum_cons, List.sum_nil, List.singleton_append,
    List.getLastD, List.getLast?, List.getLast, Option.getD_some, Option.getD_none,
    Option.toList_some, Option.toList_none, Option.isSome_some, Option.isSome_none,
    Option.map_some, Option.map_none, reduceIte, decide_eq_true_eq, if_true, if_false,
    List.lookup, List.find?, List.isEmpty, Bool.false_eq_true, Bool.true_eq_false, or_false,
    false_or, or_self, min_def, max_def, decide_True, decide_False, and_true, true_and,
    and_false, false_and, Bool.true_and, Bool.and_true, Bool.false_and, Bool.and_false,
    Bool.and_self, Bool.true_or, Bool.or_true, Bool.false_or, Bool.or_false]

/-- Evaluation of runC8 to its literal final state. -/
theorem runC8_state : Fixtures.runC8 = Fixtures.runC8lit := by
  norm_num only [Fixtures.runC8, Fixtures.runC8lit, Fixtures.runC8trade, Fixtures.barsC8,
    Fixtures.sigC1, Fixtures.meta1, Backtest.run_backtest_state, Backtest.run_bars,
    Backtest.process_bar, Backtest.check_exits, Backtest.execute_exit, Backtest.execute_signal,
    Backtest.apply_funding_costs, Backtest.close_all_positions, Backtest.popRand,
    Backtest.calculate_slippage, Backtest.calculate_fees, Backtest.calculate_funding_costs,
    LegacyRisk.calculate_position_size, LegacyRisk.calculate_liquidation_price,
    LegacyRisk.validate_liquidation_buffer, LegacyRisk.get_maintenance_margin,
    LegacyRisk.errorSizing, LegacyRisk.check_portfolio_risk_ok, LegacyRisk.pyRound,
    LegacyRisk.pyTrunc, ExitExec.check_exit_signals, ExitExec.check_stop_loss,
    ExitExec.check_take_profit, ExitExec.check_part_exit, ExitExec.check_trailing_stop,
    ExitExec.check_time_based_exit, ExitExec.manual_exit, ExitExec.create_exit_strategy,
    ExitExec.emptyExitState, ExitExec.atrTruthy, PyConfig.max_risk_per_trade,
    PyConfig.max_portfolio_risk, PyConfig.max_concurrent_positions,
    PyConfig.liquidation_buffer_atr_multiplier, PyConfig.liquidation_buffer_percent,
    PyConfig.sl_liquidation_buffer_atr, PyConfig.part_exit_ratio,
    PyConfig.trailing_atr_multiplier, PyConfig.max_trade_duration_hours, PyConfig.maker_fee,
    PyConfig.funding_interval_hours,
    List.foldl_cons, List.foldl_nil, List.headD, List.tail_cons, List.map_cons, List.map_nil,
    List.cons_append, List.nil_append, List.sum_cons, List.sum_nil, List.singleton_append,
    List.getLastD, List.getLast?, List.getLast, Option.getD_some, Option.getD_none,
    Option.toList_some, Option.toList_none, Option.isSome_some, Option.isSome_none,
    Option.map_some, Option.map_none, reduceIte, decide_eq_true_eq, if_true, if_false,
    List.lookup, List.find?, List.isEmpty, Bool.false_eq_true, Bool.true_eq_false, or_false,
    false_or, or_self, min_def, max_def, decide_True, decide_False, and_true, true_and,
    and_false, false_and, Bool.true_and, Bool.and_true, Bool.false_and, Bool.and_false,
    Bool.and_self, Bool.true_or, Bool.or_true, Bool.false_or, Bool.or_false]

/-- C1: the ledger violates the equity identity.  On the three-bar run the
realized PnL is 16, the recorded fees are 8.004 and the recorded funding
is 0.250025, yet the final equity is not initial + PnL - fees - funding:
it is lower by exactly the bar-2 funding accrual 0.250025, which the exit
deduction then counts a second time. -/
theorem C1_funding_double_counted :
    ((Fixtures.runC1.trades.map (fun t => t.pnl)).sum = 16 ∧
     (Fixtures.runC1.trades.map (fun t => t.fees)).sum = 2001/250 ∧
     (Fixtures.runC1.trades.map (fun t => t.funding_costs)).sum = 10001/40000) ∧
    Fixtures.runC1.equity ≠ 10000 + 16 - 2001/250 - 10001/40000 ∧
    Fixtures.runC1.equity = 10000 + 16 - 2001/250 - 10001/40000 - 10001/40000 := by
  rw [runC1_state]
  refine ⟨⟨?_, ?_, ?_⟩, ?_, ?_⟩ <;>
    norm_num [Fixtures.runC1lit, Fixtures.runC1trade]

/-- C8: on the run whose bar-2 close crosses the partial-exit target, the
exit machine emits a PARTIAL signal for half the quantity (10 of 20), but
BacktestEngine._execute_exit deletes the whole position and its exit
strategy: after bar 2 no position remains and the only recorded trade is
the partial one. -/
theorem C8_partial_exit_closes_position :
    Fixtures.runC8.position = none ∧
    Fixtures.runC8.exitState = ExitExec.emptyExitState ∧
    Fixtures.runC8.trades.map (fun t => t.quantity) = [10] ∧
    Fixtures.runC8.trades.map (fun t => t.exit_reason) = ["Partial exit at R1 target"] := by
  rw [runC8_state]
  refine ⟨rfl, rfl, ?_, ?_⟩ <;>
    norm_num [Fixtures.runC8lit, Fixtures.runC8trade]

/-- C9: with zero trades the aggregation returns the defined empty result
(total_trades = 0, sharpe_ratio = 0, max_drawdown = 0, all other metrics
at their sentinel values) and, being a total function, raises nothing. -/
theorem C9_zero_trades_empty_result (initial_equity : ℚ) (curve : List Backtest.Snapshot) :
    Backtest.calculate_results initial_equity [] curve = Backtest.create_empty_result ∧
    (Backtest.calculate_results initial_equity [] curve).total_trades = 0 ∧
    (Backtest.calculate_results initial_equity [] curve).sharpe_ratio = 0 ∧
    (Backtest.calculate_results initial_equity [] curve).max_drawdown = 0 := by
  have h : Backtest.calculate_results initial_equity [] curve = Backtest.create_empty_result := by
    rw [Backtest.calculate_results]
    simp
  exact ⟨h, by rw [h]; rfl, by rw [h]; rfl, by rw [h]; rfl⟩

/-- C2: for positive entry and integer leverage parameter at least 1, the
sizer's approximate liquidation price equals the spec formula
entry x (1 - 1/L) x (1 - mmr) for a long and entry x (1 + 1/L) x (1 + mmr)
for a short, with mmr the first (lowest-notional) tier's margin rate and
0.004 when no tier is available. -/
theorem C2_liq_price_formula (meta : QuantRisk.SymbolMeta) (entry : ℚ) (L : ℤ)
    (hentry : 0 < entry) (hL : 1 ≤ L) :
    QuantRisk.compute_exchange_liq_price meta "long" entry L
      = some (QuantRisk.spec_liq_price true entry (QuantRisk.tierMMR meta) L) ∧
    QuantRisk.compute_exchange_liq_price meta "short" entry L
      = some (QuantRisk.spec_liq_price false entry (QuantRisk.tierMMR meta) L) := by
  constructor <;>
    simp [QuantRisk.compute_exchange_liq_price, QuantRisk.spec_liq_price]

/-- Witness for C2 at entry 100, leverage 4, tier rate 1/200. -/
theorem C2_liq_price_formula_witness :
    QuantRisk.compute_exchange_liq_price ⟨1, 10, [⟨some (1/200)⟩]⟩ "long" 100 4
      = some (QuantRisk.spec_liq_price true 100
          (QuantRisk.tierMMR ⟨1, 10, [⟨some (1/200)⟩]⟩) 4) :=
  (C2_liq_price_formula ⟨1, 10, [⟨some (1/200)⟩]⟩ 100 4 (by norm_num) (by norm_num)).1

/-- C3 counterexample: a long with entry 100, stop 95, take 110 evaluated
on the bar (low 90, high 115, close 112).  The engine evaluates exits at
the bar close only, so the returned exit is the take-profit, not a
stop-loss: the claim's concrete tie-break scenario is false on the code. -/
theorem C3_counterexample_tp_returned :
    ((ExitExec.check_exit_signals
        (ExitExec.create_exit_strategy "BTCUSDT" "LONG" 100 95 110 true 0)
        (Backtest.Bar.close ⟨2, 90, 115, 112, some 1⟩) 2 (some 1) 0).2.map
      (fun s => s.exit_type)) = ["TP"] ∧
    "SL" ∉ ((ExitExec.check_exit_signals
        (ExitExec.create_exit_strategy "BTCUSDT" "LONG" 100 95 110 true 0)
        (Backtest.Bar.close ⟨2, 90, 115, 112, some 1⟩) 2 (some 1) 0).2.map
      (fun s => s.exit_type)) := by
  have h : ((ExitExec.check_exit_signals
      (ExitExec.create_exit_strategy "BTCUSDT" "LONG" 100 95 110 true 0)
      (Backtest.Bar.close ⟨2, 90, 115, 112, some 1⟩) 2 (some 1) 0).2.map
      (fun s => s.exit_type)) = ["TP"] := by
    norm_num only [Backtest.run_backtest_state, Backtest.run_bars,
    Backtest.process_bar, Backtest.check_exits, Backtest.execute_exit, Backtest.execute_signal,
    Backtest.apply_funding_costs, Backtest.close_all_positions, Backtest.popRand,
    Backtest.calculate_slippage, Backtest.calculate_fees, Backtest.calculate_funding_costs,
    LegacyRisk.calculate_position_size, LegacyRisk.calculate_liquidation_price,
    LegacyRisk.validate_liquidation_buffer, LegacyRisk.get_maintenance_margin,
    LegacyRisk.errorSizing, LegacyRisk.check_portfolio_risk_ok, LegacyRisk.pyRound,
    LegacyRisk.pyTrunc, ExitExec.check_exit_signals, ExitExec.check_stop_loss,
    ExitExec.check_take_profit, ExitExec.check_part_exit, ExitExec.check_trailing_stop,
    ExitExec.check_time_based_exit, ExitExec.manual_exit, ExitExec.create_exit_strategy,
    ExitExec.emptyExitState, ExitExec.atrTruthy, PyConfig.max_risk_per_trade,
    PyConfig.max_portfolio_risk, PyConfig.max_concurrent_positions,
    PyConfig.liquidation_buffer_atr_multiplier, PyConfig.liquidation_buffer_percent,
    PyConfig.sl_liquidation_buffer_atr, PyConfig.part_exit_ratio,
    PyConfig.trailing_atr_multiplier, PyConfig.max_trade_duration_hours, PyConfig.maker_fee,
    PyConfig.funding_interval_hours,
    List.foldl_cons, List.foldl_nil, List.headD, List.tail_cons, List.map_cons, List.map_nil,
    List.cons_append, List.nil_append, List.sum_cons, List.sum_nil, List.singleton_append,
    List.getLastD, List.getLast?, List.getLast, Option.getD_some, Option.getD_none,
    Option.toList_some, Option.toList_none, Option.isSome_some, Option.isSome_none,
    Option.map_some, Option.map_none, reduceIte, decide_eq_true_eq, if_true, if_false,
    List.lookup, List.find?, List.isEmpty, Bool.false_eq_true, Bool.true_eq_false, or_false,
    false_or, or_self, min_def, max_def, decide_True, decide_False, and_true, true_and,
    and_false, false_and, Bool.true_and, Bool.and_true, Bool.false_and, Bool.and_false,
    Bool.and_self, Bool.true_or, Bool.or_true, Bool.false_or, Bool.or_false]
  refine ⟨h, ?_⟩
  rw [h]
  simp

/-- C3 amended: exit evaluation consumes a single current price (the bar
close; low and high are never consulted).  Whenever that price triggers
both the stop-loss condition and the take-profit condition of the open
position, the evaluation returns exactly one signal, a stop-loss full
close at that price, and never a take-profit. -/
theorem C3_sl_preempts_tp (st : ExitExec.ExitState)
    (strategy : ExitExec.ExitStrategy) (p q : ℚ) (a : Option ℚ) (now : ℚ)
    (hs : st.strategy = some strategy)
    (hsl : if strategy.position_type = "LONG" then p ≤ strategy.stop_loss
           else strategy.stop_loss ≤ p)
    (htp : if strategy.position_type = "LONG" then strategy.take_profit ≤ p
           else p ≤ strategy.take_profit) :
    (ExitExec.check_exit_signals st p q a now).1 = st ∧
    ∃ s : ExitExec.ExitSignal,
      (ExitExec.check_exit_signals st p q a now).2 = [s] ∧
      s.exit_type = "SL" ∧ s.exit_quantity = q ∧ s.exit_price = p := by
  by_cases hty : strategy.position_type = "LONG"
  · rw [if_pos hty] at hsl htp
    simp [ExitExec.check_exit_signals, hs, ExitExec.check_stop_loss, hty, hsl]
  · rw [if_neg hty] at hsl htp
    simp [ExitExec.check_exit_signals, hs, ExitExec.check_stop_loss, hty, hsl]

/-- Witness for C3 amended: a long whose stop (ratcheted to 111) sits
above its take-profit 110; price 110.5 triggers both conditions and the
returned exit is the stop-loss. -/
theorem C3_sl_preempts_tp_witness :
    (ExitExec.check_exit_signals
        (⟨some ⟨"BTCUSDT", "LONG", 100, 111, 110, true, 2, true, 1/2, 105, true, 48, 0⟩,
          some 111, some ⟨false, 0, 0⟩⟩ : ExitExec.ExitState) (221/2) 2 (some 1) 0).1
      = (⟨some ⟨"BTCUSDT", "LONG", 100, 111, 110, true, 2, true, 1/2, 105, true, 48, 0⟩,
          some 111, some ⟨false, 0, 0⟩⟩ : ExitExec.ExitState) ∧
    ∃ s : ExitExec.ExitSignal,
      (ExitExec.check_exit_signals
          (⟨some ⟨"BTCUSDT", "LONG", 100, 111, 110, true, 2, true, 1/2, 105, true, 48, 0⟩,
            some 111, some ⟨false, 0, 0⟩⟩ : ExitExec.ExitState) (221/2) 2 (some 1) 0).2 = [s] ∧
      s.exit_type = "SL" ∧ s.exit_quantity = 2 ∧ s.exit_price = 221/2 :=
  C3_sl_preempts_tp _ _ (221/2) 2 (some 1) 0 rfl (by norm_num) (by norm_num)

theorem delev_steps_le (cfg : QuantRisk.RiskConfig) (meta : QuantRisk.SymbolMeta)
    (trade : QuantRisk.PlannedTrade) (lev : ℤ) (p : Bool) (r : List String)
    (liq : Option ℚ) :
    (QuantRisk.delev cfg meta trade lev p r liq).2.2.2.2 ≤ Nat.log 2 lev.toNat := by
  induction lev, p, r, liq using QuantRisk.delev.induct cfg meta trade with
  | case1 lev p r liq h lev2 liq2 pr ih =>
    have h2 : 2 ≤ lev := by omega
    have hne : lev2.toNat = lev.toNat / 2 := by
      show (max 1 (lev / 2)).toNat = lev.toNat / 2
      omega
    have hpos : 0 < Nat.log 2 lev.toNat := Nat.log_pos (by norm_num) (by omega)
    have hlog : Nat.log 2 (lev.toNat / 2) + 1 = Nat.log 2 lev.toNat := by
      rw [Nat.log_div_base]
      omega
    rw [QuantRisk.delev, dif_pos h]
    show (QuantRisk.delev cfg meta trade lev2 pr.1 pr.2 liq2).2.2.2.2 + 1 ≤ Nat.log 2 lev.toNat
    rw [hne] at ih
    omega
  | case2 lev p r liq h =>
    rw [QuantRisk.delev, dif_neg h]
    simp

/-- C4: sizing always terminates with a result, and the deleveraging loop of
RiskEngine.size_position halves the applied leverage at most
ceil(log2(max_leverage)) + 1 times before stopping. -/
theorem C4_sizer_total_and_loop_bounded (cfg : QuantRisk.RiskConfig)
    (metaLookup : String → QuantRisk.SymbolMeta) (trade : QuantRisk.PlannedTrade) :
    QuantRisk.sizing_iterations cfg metaLookup trade
      ≤ Nat.clog 2 (metaLookup trade.symbol).max_leverage.toNat + 1 ∧
    ∃ res : QuantRisk.SizingResult, QuantRisk.size_position cfg metaLookup trade = res := by
  refine ⟨?_, ⟨_, rfl⟩⟩
  rw [QuantRisk.sizing_iterations, QuantRisk.sizeCore]
  split
  · exact Nat.zero_le _
  · show (QuantRisk.loopOut cfg (metaLookup trade.symbol) trade).2.2.2.2
      ≤ Nat.clog 2 (metaLookup trade.symbol).max_leverage.toNat + 1
    have h1 := delev_steps_le cfg (metaLookup trade.symbol) trade
      (QuantRisk.applied0 cfg (metaLookup trade.symbol) trade)
      (QuantRisk.check_liq_buffer cfg trade
        (QuantRisk.preLiq cfg (metaLookup trade.symbol) trade)).1
      (QuantRisk.check_liq_buffer cfg trade
        (QuantRisk.preLiq cfg (metaLookup trade.symbol) trade)).2
      (QuantRisk.preLiq cfg (metaLookup trade.symbol) trade)
    have h2 : (QuantRisk.applied0 cfg (metaLookup trade.symbol) trade).toNat
        ≤ (metaLookup trade.symbol).max_leverage.toNat :=
      Int.toNat_le_toNat (min_le_right _ _)
    calc (QuantRisk.loopOut cfg (metaLookup trade.symbol) trade).2.2.2.2
        ≤ Nat.log 2 (QuantRisk.applied0 cfg (metaLookup trade.symbol) trade).toNat := h1
      _ ≤ Nat.log 2 (metaLookup trade.symbol).max_leverage.toNat := Nat.log_mono_right h2
      _ ≤ Nat.clog 2 (metaLookup trade.symbol).max_leverage.toNat := Nat.log_le_clog _ _
      _ ≤ Nat.clog 2 (metaLookup trade.symbol).max_leverage.toNat + 1 := Nat.le_succ _

theorem lookup_nonneg {l : List (String × ℚ)} (h : ∀ p ∈ l, 0 ≤ p.2) {k : String} {c : ℚ}
    (hc : l.lookup k = some c) : 0 ≤ c := by
  induction l with
  | nil => simp [List.lookup] at hc
  | cons a l ih =>
    rw [List.lookup] at hc
    cases hb : (k == a.1) with
    | true =>
      simp only [hb] at hc
      cases hc
      exact h a (List.mem_cons_self a l)
    | false =>
      simp only [hb] at hc
      exact ih (fun p hp => h p (List.mem_cons_of_mem a hp)) hc

theorem levCap_nonneg (cfg : QuantRisk.RiskConfig)
    (h : ∀ p ∈ cfg.vol_class_leverage_caps, 0 ≤ p.2) (v : String) :
    0 ≤ QuantRisk.levCap cfg v := by
  rw [QuantRisk.levCap]
  split
  · next c hc => exact lookup_nonneg h hc
  · norm_num

theorem initNotionalEff_nonneg (cfg : QuantRisk.RiskConfig) (trade : QuantRisk.PlannedTrade)
    (heq : 0 < cfg.equity_usdt) (hrisk : 0 ≤ cfg.risk_per_trade_pct)
    (hentry : 0 < trade.entry)
    (hcaps : ∀ p ∈ cfg.vol_class_leverage_caps, 0 ≤ p.2) :
    0 ≤ (QuantRisk.initNotionalEff cfg trade).1 := by
  rw [QuantRisk.initNotionalEff]
  split
  · exact mul_nonneg (levCap_nonneg cfg hcaps _) (le_of_lt heq)
  · refine div_nonneg (mul_nonneg (le_of_lt heq) hrisk) ?_
    exact div_nonneg (abs_nonneg _) (le_of_lt hentry)

theorem sizeCore_shape (cfg : QuantRisk.RiskConfig) (meta : QuantRisk.SymbolMeta)
    (trade : QuantRisk.PlannedTrade) (h : ¬(|trade.entry - trade.sl| ≤ 0))
    (hstep : 0 < meta.step_size) :
    ∃ n2 : ℚ,
      (n2 = (QuantRisk.initNotionalEff cfg trade).1 ∨
       n2 = (QuantRisk.initNotionalEff cfg trade).1 * (1/2)) ∧
      (QuantRisk.sizeCore cfg meta trade).1.notional = n2 ∧
      (QuantRisk.sizeCore cfg meta trade).1.quantity =
        (⌊n2 / trade.entry / meta.step_size⌋ : ℚ) * meta.step_size := by
  have hz : ¬(meta.step_size = 0) := ne_of_gt hstep
  rw [QuantRisk.sizeCore, if_neg h]
  dsimp only
  rw [if_neg hz]
  rw [if_pos hstep]
  by_cases hp : (QuantRisk.loopOut cfg meta trade).2.1 = false
  · refine ⟨(QuantRisk.initNotionalEff cfg trade).1 * (1/2), Or.inr rfl, ?_, ?_⟩ <;>
      rw [if_pos hp]
  · refine ⟨(QuantRisk.initNotionalEff cfg trade).1, Or.inl rfl, ?_, ?_⟩ <;>
      rw [if_neg hp]

/-- C5: every sized quantity that passes the liquidation buffer is a
non-negative integer multiple of the symbol step size, and the resulting
position value quantity * entry never exceeds the reported notional (stated
with any non-negative slack factor 1 + eps, in particular eps = 0). -/
theorem C5_valid_quantity_rounding (cfg : QuantRisk.RiskConfig)
    (metaLookup : String → QuantRisk.SymbolMeta) (trade : QuantRisk.PlannedTrade)
    (heq : 0 < cfg.equity_usdt) (hentry : 0 < trade.entry)
    (hsl : trade.sl ≠ trade.entry) (hrisk : 0 ≤ cfg.risk_per_trade_pct)
    (hstep : 0 < (metaLookup trade.symbol).step_size)
    (hcaps : ∀ p ∈ cfg.vol_class_leverage_caps, 0 ≤ p.2)
    (hvalid : (QuantRisk.size_position cfg metaLookup trade).passes_liq_buffer = true) :
    (∃ k : ℕ, (QuantRisk.size_position cfg metaLookup trade).quantity
        = (k : ℚ) * (metaLookup trade.symbol).step_size) ∧
    ∀ ε : ℚ, 0 ≤ ε →
      (QuantRisk.size_position cfg metaLookup trade).quantity * trade.entry
        ≤ (QuantRisk.size_position cfg metaLookup trade).notional * (1 + ε) := by
  have habs : ¬(|trade.entry - trade.sl| ≤ 0) := by
    rw [not_le, abs_pos, sub_ne_zero]
    exact fun hh => hsl hh.symm
  obtain ⟨n2, hn2or, hnot, hqty⟩ :=
    sizeCore_shape cfg (metaLookup trade.symbol) trade habs hstep
  have hne0 : 0 ≤ (QuantRisk.initNotionalEff cfg trade).1 :=
    initNotionalEff_nonneg _ _ heq hrisk hentry hcaps
  have hn2 : 0 ≤ n2 := by
    rcases hn2or with hcase | hcase <;> rw [hcase]
    · exact hne0
    · exact mul_nonneg hne0 (by norm_num)
  have hq : 0 ≤ n2 / trade.entry / (metaLookup trade.symbol).step_size :=
    div_nonneg (div_nonneg hn2 hentry.le) hstep.le
  have hfl : 0 ≤ ⌊n2 / trade.entry / (metaLookup trade.symbol).step_size⌋ :=
    Int.floor_nonneg.mpr hq
  constructor
  · refine ⟨(⌊n2 / trade.entry / (metaLookup trade.symbol).step_size⌋).toNat, ?_⟩
    rw [QuantRisk.size_position, hqty]
    congr 1
    exact_mod_cast (congrArg (fun z : ℤ => (z : ℚ)) (Int.toNat_of_nonneg hfl)).symm
  · intro ε hε
    rw [QuantRisk.size_position, hqty, hnot]
    have hs0 : (metaLookup trade.symbol).step_size ≠ 0 := ne_of_gt hstep
    have he0 : trade.entry ≠ 0 := ne_of_gt hentry
    have h1 : (⌊n2 / trade.entry / (metaLookup trade.symbol).step_size⌋ : ℚ) *
        (metaLookup trade.symbol).step_size ≤ n2 / trade.entry := by
      calc (⌊n2 / trade.entry / (metaLookup trade.symbol).step_size⌋ : ℚ) *
          (metaLookup trade.symbol).step_size
          ≤ (n2 / trade.entry / (metaLookup trade.symbol).step_size) *
            (metaLookup trade.symbol).step_size :=
            mul_le_mul_of_nonneg_right (Int.floor_le _) hstep.le
        _ = n2 / trade.entry := div_mul_cancel₀ _ hs0
    have h2 : (⌊n2 / trade.entry / (metaLookup trade.symbol).step_size⌋ : ℚ) *
        (metaLookup trade.symbol).step_size * trade.entry ≤ n2 := by
      calc (⌊n2 / trade.entry / (metaLookup trade.symbol).step_size⌋ : ℚ) *
          (metaLookup trade.symbol).step_size * trade.entry
          ≤ (n2 / trade.entry) * trade.entry :=
            mul_le_mul_of_nonneg_right h1 hentry.le
        _ = n2 := div_mul_cancel₀ _ he0
    calc (⌊n2 / trade.entry / (metaLookup trade.symbol).step_size⌋ : ℚ) *
        (metaLookup trade.symbol).step_size * trade.entry
        ≤ n2 := h2
      _ ≤ n2 * (1 + ε) := le_mul_of_one_le_right hn2 (by linarith)

theorem sizeCore_fallback (cfg : QuantRisk.RiskConfig) (meta : QuantRisk.SymbolMeta)
    (trade : QuantRisk.PlannedTrade) (hd : ¬(|trade.entry - trade.sl| ≤ 0))
    (hp : (QuantRisk.loopOut cfg meta trade).2.1 = false) :
    (QuantRisk.sizeCore cfg meta trade).1.notional
      = (QuantRisk.initNotionalEff cfg trade).1 * (1/2) ∧
    (QuantRisk.sizeCore cfg meta trade).1.passes_liq_buffer
      = (QuantRisk.check_liq_buffer cfg trade (QuantRisk.loopOut cfg meta trade).2.2.2.1).1 ∧
    (QuantRisk.sizeCore cfg meta trade).1.reasons
      = (QuantRisk.check_liq_buffer cfg trade (QuantRisk.loopOut cfg meta trade).2.2.2.1).2 := by
  simp only [QuantRisk.sizeCore]
  rw [if_neg hd, if_pos hp]
  exact ⟨rfl, rfl, rfl⟩

theorem mem_reasons_aux (c1 c2 : Bool) (s : String) (hf : (c1 && c2) = false)
    (hs : s ∈ (if ((if c1 then ([] : List String) else ["entry_liq_buffer_fail"]) ++
        (if c2 then ([] : List String) else ["sl_liq_buffer_fail"])).isEmpty then ["ok"]
      else (if c1 then ([] : List String) else ["entry_liq_buffer_fail"]) ++
        (if c2 then ([] : List String) else ["sl_liq_buffer_fail"]))) :
    s = "entry_liq_buffer_fail" ∨ s = "sl_liq_buffer_fail" ∨ s = "no_liq_price" := by
  cases c1 <;> cases c2 <;> simp_all <;> tauto

theorem check_reasons_cases (cfg : QuantRisk.RiskConfig) (trade : QuantRisk.PlannedTrade)
    (liq : Option ℚ) (hf : (QuantRisk.check_liq_buffer cfg trade liq).1 = false) :
    ∀ s ∈ (QuantRisk.check_liq_buffer cfg trade liq).2,
      s = "entry_liq_buffer_fail" ∨ s = "sl_liq_buffer_fail" ∨ s = "no_liq_price" := by
  intro s hs
  cases liq with
  | none =>
    simp [QuantRisk.check_liq_buffer] at hs
    tauto
  | some lp =>
    rw [QuantRisk.check_liq_buffer] at hs hf
    exact mem_reasons_aux _ _ s hf hs

theorem delev_lev_one (cfg : QuantRisk.RiskConfig) (meta : QuantRisk.SymbolMeta)
    (trade : QuantRisk.PlannedTrade) (p : Bool) (r : List String) (liq : Option ℚ) :
    QuantRisk.delev cfg meta trade 1 p r liq = (1, p, r, liq, 0) := by
  rw [QuantRisk.delev]
  norm_num

/-- C6 counterexample: for a trade whose liquidation buffers are
unsatisfiable at every leverage (atr = 10000), the sizer returns an
invalid result, but its recorded reasons are the buffer-check failures;
the string "liquidation_buffer_unreachable" appears nowhere. -/
theorem C6_counterexample_reason_string :
    (QuantRisk.size_position Fixtures.cfgW (fun _ => Fixtures.metaC6)
        Fixtures.tradeC6).passes_liq_buffer = false ∧
    "liquidation_buffer_unreachable" ∉ (QuantRisk.size_position Fixtures.cfgW
        (fun _ => Fixtures.metaC6) Fixtures.tradeC6).reasons := by
  have hr : (QuantRisk.size_position Fixtures.cfgW (fun _ => Fixtures.metaC6)
      Fixtures.tradeC6).reasons = ["entry_liq_buffer_fail", "sl_liq_buffer_fail"] := by
    norm_num only [Fixtures.cfgW, Fixtures.metaC6, Fixtures.tradeC6,
    QuantRisk.size_position, QuantRisk.sizeCore, QuantRisk.loopOut, QuantRisk.preLiq,
    QuantRisk.applied0, QuantRisk.initNotionalEff, QuantRisk.levCap, delev_lev_one,
    QuantRisk.check_liq_buffer, QuantRisk.compute_exchange_liq_price, QuantRisk.tierMMR,
    List.lookup, List.isEmpty, Option.getD_some, Option.getD_none, reduceIte, reduceDIte,
    abs_of_pos, abs_of_nonneg, abs_of_nonpos, abs_zero, List.head?_nil, List.head?_cons,
    decide_eq_true_eq, if_true, if_false, Bool.false_eq_true, Bool.true_eq_false, or_false,
    false_or, or_self, min_def, max_def, decide_True, decide_False, and_true, true_and,
    and_false, false_and, Bool.true_and, Bool.and_true, Bool.false_and, Bool.and_false,
    List.cons_append, List.nil_append, List.singleton_append]
  refine ⟨?_, ?_⟩
  · norm_num only [Fixtures.cfgW, Fixtures.metaC6, Fixtures.tradeC6,
    QuantRisk.size_position, QuantRisk.sizeCore, QuantRisk.loopOut, QuantRisk.preLiq,
    QuantRisk.applied0, QuantRisk.initNotionalEff, QuantRisk.levCap, delev_lev_one,
    QuantRisk.check_liq_buffer, QuantRisk.compute_exchange_liq_price, QuantRisk.tierMMR,
    List.lookup, List.isEmpty, Option.getD_some, Option.getD_none, reduceIte, reduceDIte,
    abs_of_pos, abs_of_nonneg, abs_of_nonpos, abs_zero, List.head?_nil, List.head?_cons,
    decide_eq_true_eq, if_true, if_false, Bool.false_eq_true, Bool.true_eq_false, or_false,
    false_or, or_self, min_def, max_def, decide_True, decide_False, and_true, true_and,
    and_false, false_and, Bool.true_and, Bool.and_true, Bool.false_and, Bool.and_false,
    List.cons_append, List.nil_append, List.singleton_append]
  · rw [hr]
    simp

/-- C6 amended: when the deleveraging loop still fails (at leverage
parameter 1) the sizer halves the notional and performs exactly one more
validation, against the unchanged liquidation price; the returned result
carries that final check's pass flag and reasons, so on persistent failure
it is invalid with reasons drawn from "entry_liq_buffer_fail",
"sl_liq_buffer_fail" and "no_liq_price" - no
"liquidation_buffer_unreachable" reason exists in the code. -/
theorem C6_fallback_single_revalidation (cfg : QuantRisk.RiskConfig)
    (metaLookup : String → QuantRisk.SymbolMeta) (trade : QuantRisk.PlannedTrade)
    (hd : ¬(|trade.entry - trade.sl| ≤ 0))
    (hp : (QuantRisk.loopOut cfg (metaLookup trade.symbol) trade).2.1 = false) :
    (QuantRisk.size_position cfg metaLookup trade).notional
      = (QuantRisk.initNotionalEff cfg trade).1 * (1/2) ∧
    (QuantRisk.size_position cfg metaLookup trade).passes_liq_buffer
      = (QuantRisk.check_liq_buffer cfg trade
          (QuantRisk.loopOut cfg (metaLookup trade.symbol) trade).2.2.2.1).1 ∧
    (QuantRisk.size_position cfg metaLookup trade).reasons
      = (QuantRisk.check_liq_buffer cfg trade
          (QuantRisk.loopOut cfg (metaLookup trade.symbol) trade).2.2.2.1).2 ∧
    ((QuantRisk.check_liq_buffer cfg trade
        (QuantRisk.loopOut cfg (metaLookup trade.symbol) trade).2.2.2.1).1 = false →
      (QuantRisk.size_position cfg metaLookup trade).passes_liq_buffer = false ∧
      ∀ s ∈ (QuantRisk.size_position cfg metaLookup trade).reasons,
        s = "entry_liq_buffer_fail" ∨ s = "sl_liq_buffer_fail" ∨ s = "no_liq_price") := by
  have h := sizeCore_fallback cfg (metaLookup trade.symbol) trade hd hp
  rw [QuantRisk.size_position]
  refine ⟨h.1, h.2.1, h.2.2, fun hcf => ⟨by rw [h.2.1, hcf], ?_⟩⟩
  rw [h.2.2]
  exact check_reasons_cases cfg trade _ hcf

/-- Witness for C6 amended at the atr-10000 fixture. -/
theorem C6_fallback_single_revalidation_witness :
    (QuantRisk.size_position Fixtures.cfgW (fun _ => Fixtures.metaC6)
        Fixtures.tradeC6).notional
      = (QuantRisk.initNotionalEff Fixtures.cfgW Fixtures.tradeC6).1 * (1/2) ∧
    (QuantRisk.size_position Fixtures.cfgW (fun _ => Fixtures.metaC6)
        Fixtures.tradeC6).passes_liq_buffer
      = (QuantRisk.check_liq_buffer Fixtures.cfgW Fixtures.tradeC6
          (QuantRisk.loopOut Fixtures.cfgW ((fun _ => Fixtures.metaC6)
            Fixtures.tradeC6.symbol) Fixtures.tradeC6).2.2.2.1).1 ∧
    (QuantRisk.size_position Fixtures.cfgW (fun _ => Fixtures.metaC6)
        Fixtures.tradeC6).reasons
      = (QuantRisk.check_liq_buffer Fixtures.cfgW Fixtures.tradeC6
          (QuantRisk.loopOut Fixtures.cfgW ((fun _ => Fixtures.metaC6)
            Fixtures.tradeC6.symbol) Fixtures.tradeC6).2.2.2.1).2 ∧
    ((QuantRisk.check_liq_buffer Fixtures.cfgW Fixtures.tradeC6
        (QuantRisk.loopOut Fixtures.cfgW ((fun _ => Fixtures.metaC6)
          Fixtures.tradeC6.symbol) Fixtures.tradeC6).2.2.2.1).1 = false →
      (QuantRisk.size_position Fixtures.cfgW (fun _ => Fixtures.metaC6)
          Fixtures.tradeC6).passes_liq_buffer = false ∧
      ∀ s ∈ (QuantRisk.size_position Fixtures.cfgW (fun _ => Fixtures.metaC6)
          Fixtures.tradeC6).reasons,
        s = "entry_liq_buffer_fail" ∨ s = "sl_liq_buffer_fail" ∨ s = "no_liq_price") :=
  C6_fallback_single_revalidation Fixtures.cfgW (fun _ => Fixtures.metaC6) Fixtures.tradeC6
    (by norm_num [Fixtures.tradeC6])
    (by norm_num only [Fixtures.cfgW, Fixtures.metaC6, Fixtures.tradeC6,
    QuantRisk.size_position, QuantRisk.sizeCore, QuantRisk.loopOut, QuantRisk.preLiq,
    QuantRisk.applied0, QuantRisk.initNotionalEff, QuantRisk.levCap, delev_lev_one,
    QuantRisk.check_liq_buffer, QuantRisk.compute_exchange_liq_price, QuantRisk.tierMMR,
    List.lookup, List.isEmpty, Option.getD_some, Option.getD_none, reduceIte, reduceDIte,
    abs_of_pos, abs_of_nonneg, abs_of_nonpos, abs_zero, List.head?_nil, List.head?_cons,
    decide_eq_true_eq, if_true, if_false, Bool.false_eq_true, Bool.true_eq_false, or_false,
    false_or, or_self, min_def, max_def, decide_True, decide_False, and_true, true_and,
    and_false, false_and, Bool.true_and, Bool.and_true, Bool.false_and, Bool.and_false,
    List.cons_append, List.nil_append, List.singleton_append])

/-- Witness for C5 at the benign long fixture (equity 1000, entry 100,
stop 95, step 0.5): the sizer returns a valid result with quantity 2. -/
theorem C5_valid_quantity_rounding_witness :
    (∃ k : ℕ, (QuantRisk.size_position Fixtures.cfgW (fun _ => Fixtures.metaW)
          Fixtures.tradeW).quantity
        = (k : ℚ) * ((fun _ => Fixtures.metaW) Fixtures.tradeW.symbol).step_size) ∧
    ∀ ε : ℚ, 0 ≤ ε →
      (QuantRisk.size_position Fixtures.cfgW (fun _ => Fixtures.metaW)
          Fixtures.tradeW).quantity * Fixtures.tradeW.entry
        ≤ (QuantRisk.size_position Fixtures.cfgW (fun _ => Fixtures.metaW)
            Fixtures.tradeW).notional * (1 + ε) :=
  C5_valid_quantity_rounding Fixtures.cfgW (fun _ => Fixtures.metaW) Fixtures.tradeW
    (by norm_num [Fixtures.cfgW]) (by norm_num [Fixtures.tradeW])
    (by norm_num [Fixtures.tradeW]) (by norm_num [Fixtures.cfgW])
    (by norm_num [Fixtures.metaW]) (by simp [Fixtures.cfgW])
    (by norm_num only [Fixtures.cfgW, Fixtures.metaW, Fixtures.tradeW,
    QuantRisk.size_position, QuantRisk.sizeCore, QuantRisk.loopOut, QuantRisk.preLiq,
    QuantRisk.applied0, QuantRisk.initNotionalEff, QuantRisk.levCap, delev_lev_one,
    QuantRisk.check_liq_buffer, QuantRisk.compute_exchange_liq_price, QuantRisk.tierMMR,
    List.lookup, List.isEmpty, Option.getD_some, Option.getD_none, reduceIte, reduceDIte,
    abs_of_pos, abs_of_nonneg, abs_of_nonpos, abs_zero, List.head?_nil, List.head?_cons,
    decide_eq_true_eq, if_true, if_false, Bool.false_eq_true, Bool.true_eq_false, or_false,
    false_or, or_self, min_def, max_def, decide_True, decide_False, and_true, true_and,
    and_false, false_and, Bool.true_and, Bool.and_true, Bool.false_and, Bool.and_false,
    List.cons_append, List.nil_append, List.singleton_append])

theorem one_div_int_le_one {L : ℤ} (hL : 1 ≤ L) : 1 / (L : ℚ) ≤ 1 := by
  have h : (1 : ℚ) ≤ (L : ℚ) := by exact_mod_cast hL
  rw [div_le_one (by linarith)]
  exact h

theorem liq_long_value (meta : QuantRisk.SymbolMeta) (entry : ℚ) (L : ℤ) :
    QuantRisk.compute_exchange_liq_price meta "long" entry L
      = some (entry * (1 - 1 / (L : ℚ)) * (1 - QuantRisk.tierMMR meta)) := by
  rw [QuantRisk.compute_exchange_liq_price]
  simp

theorem liq_other_value (meta : QuantRisk.SymbolMeta) (dir : String) (entry : ℚ) (L : ℤ)
    (h : ¬(dir = "long")) :
    QuantRisk.compute_exchange_liq_price meta dir entry L
      = some (entry * (1 + 1 / (L : ℚ)) * (1 + QuantRisk.tierMMR meta)) := by
  rw [QuantRisk.compute_exchange_liq_price]
  simp [h]

theorem check_fst_false_iff (cfg : QuantRisk.RiskConfig) (trade : QuantRisk.PlannedTrade)
    (lp : ℚ) :
    ((QuantRisk.check_liq_buffer cfg trade (some lp)).1 = false ↔
      ¬((if trade.direction = "long" then (trade.entry - lp) / trade.entry
          else (lp - trade.entry) / trade.entry)
        ≥ max (cfg.atr_buffer_mult_entry * trade.atr / trade.entry) cfg.liq_buffer_pct_min) ∨
      ¬((if trade.direction = "long" then
            (if trade.sl > 0 then (trade.sl - lp) / trade.sl else 0)
          else (if trade.sl > 0 then (lp - trade.sl) / trade.sl else 0))
        ≥ cfg.atr_buffer_mult_sl * trade.atr / max trade.sl (1/1000000000))) := by
  rw [QuantRisk.check_liq_buffer]
  simp only [Bool.and_eq_false_iff, decide_eq_false_iff_not]

theorem check_fail_mono_long (cfg : QuantRisk.RiskConfig) (trade : QuantRisk.PlannedTrade)
    (hdir : trade.direction = "long") (hentry : 0 < trade.entry) (hslpos : trade.sl > 0)
    {lp1 lpL : ℚ} (hle : lp1 ≤ lpL)
    (h1 : (QuantRisk.check_liq_buffer cfg trade (some lp1)).1 = false) :
    (QuantRisk.check_liq_buffer cfg trade (some lpL)).1 = false := by
  rw [check_fst_false_iff] at h1 ⊢
  simp only [hdir, hslpos, reduceIte, if_true] at h1 ⊢
  have hA : (trade.entry - lpL) / trade.entry ≤ (trade.entry - lp1) / trade.entry := by
    apply div_le_div_of_nonneg_right ?_ hentry.le
    linarith
  have hB : (trade.sl - lpL) / trade.sl ≤ (trade.sl - lp1) / trade.sl := by
    apply div_le_div_of_nonneg_right ?_ (le_of_lt hslpos)
    linarith
  rcases h1 with h1 | h1
  · exact Or.inl (fun hc => h1 (le_trans hc hA))
  · exact Or.inr (fun hc => h1 (le_trans hc hB))

theorem check_fail_mono_other (cfg : QuantRisk.RiskConfig) (trade : QuantRisk.PlannedTrade)
    (hdir : ¬(trade.direction = "long")) (hentry : 0 < trade.entry) (hslpos : trade.sl > 0)
    {lp1 lpL : ℚ} (hle : lpL ≤ lp1)
    (h1 : (QuantRisk.check_liq_buffer cfg trade (some lp1)).1 = false) :
    (QuantRisk.check_liq_buffer cfg trade (some lpL)).1 = false := by
  rw [check_fst_false_iff] at h1 ⊢
  simp only [if_neg hdir, hslpos, if_true] at h1 ⊢
  have hA : (lpL - trade.entry) / trade.entry ≤ (lp1 - trade.entry) / trade.entry := by
    apply div_le_div_of_nonneg_right ?_ hentry.le
    linarith
  have hB : (lpL - trade.sl) / trade.sl ≤ (lp1 - trade.sl) / trade.sl := by
    apply div_le_div_of_nonneg_right ?_ (le_of_lt hslpos)
    linarith
  rcases h1 with h1 | h1
  · exact Or.inl (fun hc => h1 (le_trans hc hA))
  · exact Or.inr (fun hc => h1 (le_trans hc hB))

theorem check_fail_all (cfg : QuantRisk.RiskConfig) (meta : QuantRisk.SymbolMeta)
    (trade : QuantRisk.PlannedTrade) (hentry : 0 < trade.entry) (hslpos : trade.sl > 0)
    (hm0 : 0 ≤ QuantRisk.tierMMR meta) (hm1 : QuantRisk.tierMMR meta ≤ 1)
    (h1 : (QuantRisk.check_liq_buffer cfg trade
        (QuantRisk.compute_exchange_liq_price meta trade.direction trade.entry 1)).1 = false) :
    ∀ L : ℤ, 1 ≤ L → (QuantRisk.check_liq_buffer cfg trade
        (QuantRisk.compute_exchange_liq_price meta trade.direction trade.entry L)).1 = false := by
  intro L hL
  have hdiv : 1 / (L : ℚ) ≤ 1 := one_div_int_le_one hL
  have hLpos : (0 : ℚ) < (L : ℚ) := by exact_mod_cast lt_of_lt_of_le one_pos hL
  by_cases hdir : trade.direction = "long"
  · rw [hdir, liq_long_value] at h1 ⊢
    have hv1 : trade.entry * (1 - 1 / ((1 : ℤ) : ℚ)) * (1 - QuantRisk.tierMMR meta) = 0 := by
      norm_num
    rw [hv1] at h1
    refine check_fail_mono_long cfg trade hdir hentry hslpos ?_ h1
    have hfac : 0 ≤ 1 - 1 / (L : ℚ) := by linarith
    have hfac2 : 0 ≤ 1 - QuantRisk.tierMMR meta := by linarith
    positivity
  · rw [liq_other_value meta trade.direction trade.entry 1 hdir] at h1
    rw [liq_other_value meta trade.direction trade.entry L hdir]
    refine check_fail_mono_other cfg trade hdir hentry hslpos ?_ h1
    have hq : 1 / (L : ℚ) ≤ 1 / ((1 : ℤ) : ℚ) := by
      norm_num
      rw [← one_div]
      exact hdiv
    have h2 : (1 + 1 / (L : ℚ)) ≤ (1 + 1 / ((1 : ℤ) : ℚ)) := by linarith
    have h3 : 0 ≤ 1 + QuantRisk.tierMMR meta := by linarith
    calc trade.entry * (1 + 1 / (L : ℚ)) * (1 + QuantRisk.tierMMR meta)
        ≤ trade.entry * (1 + 1 / ((1 : ℤ) : ℚ)) * (1 + QuantRisk.tierMMR meta) := by
          apply mul_le_mul_of_nonneg_right ?_ h3
          apply mul_le_mul_of_nonneg_left h2 hentry.le
      _ = trade.entry * (1 + 1 / ((1 : ℤ) : ℚ)) * (1 + QuantRisk.tierMMR meta) := rfl

theorem delev_fail_all (cfg : QuantRisk.RiskConfig) (meta : QuantRisk.SymbolMeta)
    (trade : QuantRisk.PlannedTrade)
    (hfail : ∀ L : ℤ, 1 ≤ L → (QuantRisk.check_liq_buffer cfg trade
        (QuantRisk.compute_exchange_liq_price meta trade.direction trade.entry L)).1 = false) :
    ∀ (lev : ℤ) (p : Bool) (r : List String) (liq : Option ℚ), 1 ≤ lev → p = false →
      liq = QuantRisk.compute_exchange_liq_price meta trade.direction trade.entry lev →
      (QuantRisk.delev cfg meta trade lev p r liq).2.1 = false ∧
      ∃ L : ℤ, 1 ≤ L ∧ (QuantRisk.delev cfg meta trade lev p r liq).2.2.2.1
        = QuantRisk.compute_exchange_liq_price meta trade.direction trade.entry L := by
  intro lev p r liq
  induction lev, p, r, liq using QuantRisk.delev.induct cfg meta trade with
  | case1 lev p r liq h lev2 liq2 pr ih =>
    intro _ _ _
    have hlev2 : (1 : ℤ) ≤ lev2 := by
      show (1 : ℤ) ≤ max 1 (lev / 2)
      omega
    have hliq2 : liq2 = QuantRisk.compute_exchange_liq_price meta trade.direction trade.entry lev2 :=
      rfl
    have hp2 : pr.1 = false := hfail lev2 hlev2
    obtain ⟨ho1, L, hL, ho2⟩ := ih hlev2 hp2 hliq2
    rw [QuantRisk.delev, dif_pos h]
    exact ⟨ho1, L, hL, ho2⟩
  | case2 lev p r liq h =>
    intro hlev hp hliq
    rw [QuantRisk.delev, dif_neg h]
    exact ⟨hp, lev, hlev, hliq⟩

theorem applied0_ge_one (cfg : QuantRisk.RiskConfig) (meta : QuantRisk.SymbolMeta)
    (trade : QuantRisk.PlannedTrade) (hml : 1 ≤ meta.max_leverage) :
    1 ≤ QuantRisk.applied0 cfg meta trade := by
  rw [QuantRisk.applied0]
  refine le_min ?_ hml
  split
  · next hge => exact Int.le_floor.mpr (by exact_mod_cast hge)
  · exact le_refl 1

/-- C10: RiskEngine.check_liq_buffer reads only the trade direction, entry,
stop and ATR together with the candidate liquidation price, never the
notional; hence when the check fails at leverage 1 the notional-halving
fallback re-checks the same predicate at the same liquidation price and the
trade is still rejected (passes_liq_buffer = false). -/
theorem C10_notional_cut_cannot_flip (cfg : QuantRisk.RiskConfig)
    (metaLookup : String → QuantRisk.SymbolMeta) (trade : QuantRisk.PlannedTrade)
    (hentry : 0 < trade.entry) (hslpos : trade.sl > 0)
    (hm0 : 0 ≤ QuantRisk.tierMMR (metaLookup trade.symbol))
    (hm1 : QuantRisk.tierMMR (metaLookup trade.symbol) ≤ 1)
    (hml : 1 ≤ (metaLookup trade.symbol).max_leverage)
    (h1 : (QuantRisk.check_liq_buffer cfg trade
        (QuantRisk.compute_exchange_liq_price (metaLookup trade.symbol) trade.direction
          trade.entry 1)).1 = false) :
    (QuantRisk.size_position cfg metaLookup trade).passes_liq_buffer = false ∧
    (∀ t2 : QuantRisk.PlannedTrade, t2.direction = trade.direction →
      t2.entry = trade.entry → t2.sl = trade.sl → t2.atr = trade.atr →
      ∀ liq : Option ℚ, QuantRisk.check_liq_buffer cfg t2 liq
        = QuantRisk.check_liq_buffer cfg trade liq) := by
  constructor
  · by_cases hd : |trade.entry - trade.sl| ≤ 0
    · rw [QuantRisk.size_position, QuantRisk.sizeCore, if_pos hd]
    · have hfail := check_fail_all cfg (metaLookup trade.symbol) trade hentry hslpos hm0 hm1 h1
      have ha0 : 1 ≤ QuantRisk.applied0 cfg (metaLookup trade.symbol) trade :=
        applied0_ge_one cfg (metaLookup trade.symbol) trade hml
      have hp0 : (QuantRisk.check_liq_buffer cfg trade
          (QuantRisk.preLiq cfg (metaLookup trade.symbol) trade)).1 = false :=
        hfail _ ha0
      have hinv := delev_fail_all cfg (metaLookup trade.symbol) trade hfail
        (QuantRisk.applied0 cfg (metaLookup trade.symbol) trade)
        (QuantRisk.check_liq_buffer cfg trade
          (QuantRisk.preLiq cfg (metaLookup trade.symbol) trade)).1
        (QuantRisk.check_liq_buffer cfg trade
          (QuantRisk.preLiq cfg (metaLookup trade.symbol) trade)).2
        (QuantRisk.preLiq cfg (metaLookup trade.symbol) trade)
        ha0 hp0 rfl
      have hp1 : (QuantRisk.loopOut cfg (metaLookup trade.symbol) trade).2.1 = false := hinv.1
      obtain ⟨L, hL, hliq1⟩ := hinv.2
      have hfb := sizeCore_fallback cfg (metaLookup trade.symbol) trade hd hp1
      rw [QuantRisk.size_position, hfb.2.1]
      have hliq1b : (QuantRisk.loopOut cfg (metaLookup trade.symbol) trade).2.2.2.1
          = QuantRisk.compute_exchange_liq_price (metaLookup trade.symbol) trade.direction
            trade.entry L := hliq1
      rw [hliq1b]
      exact hfail L hL
  · intro t2 e1 e2 e3 e4 liq
    cases liq with
    | none => rfl
    | some lp => simp only [QuantRisk.check_liq_buffer, e1, e2, e3, e4]

/-- Witness for C10 at the atr-10000 fixture: validation fails at leverage
parameter 1 and the returned result is invalid. -/
theorem C10_notional_cut_cannot_flip_witness :
    (QuantRisk.size_position Fixtures.cfgW (fun _ => Fixtures.metaC6)
        Fixtures.tradeC6).passes_liq_buffer = false ∧
    (∀ t2 : QuantRisk.PlannedTrade, t2.direction = Fixtures.tradeC6.direction →
      t2.entry = Fixtures.tradeC6.entry → t2.sl = Fixtures.tradeC6.sl →
      t2.atr = Fixtures.tradeC6.atr →
      ∀ liq : Option ℚ, QuantRisk.check_liq_buffer Fixtures.cfgW t2 liq
        = QuantRisk.check_liq_buffer Fixtures.cfgW Fixtures.tradeC6 liq) :=
  C10_notional_cut_cannot_flip Fixtures.cfgW (fun _ => Fixtures.metaC6) Fixtures.tradeC6
    (by norm_num [Fixtures.tradeC6]) (by norm_num [Fixtures.tradeC6])
    (by norm_num [QuantRisk.tierMMR, Fixtures.metaC6])
    (by norm_num [QuantRisk.tierMMR, Fixtures.metaC6])
    (by norm_num [Fixtures.metaC6])
    (by norm_num only [Fixtures.cfgW, Fixtures.metaC6, Fixtures.tradeC6,
    QuantRisk.size_position, QuantRisk.sizeCore, QuantRisk.loopOut, QuantRisk.preLiq,
    QuantRisk.applied0, QuantRisk.initNotionalEff, QuantRisk.levCap, delev_lev_one,
    QuantRisk.check_liq_buffer, QuantRisk.compute_exchange_liq_price, QuantRisk.tierMMR,
    List.lookup, List.isEmpty, Option.getD_some, Option.getD_none, reduceIte, reduceDIte,
    abs_of_pos, abs_of_nonneg, abs_of_nonpos, abs_zero, List.head?_nil, List.head?_cons,
    decide_eq_true_eq, if_true, if_false, Bool.false_eq_true, Bool.true_eq_false, or_false,
    false_or, or_self, min_def, max_def, decide_True, decide_False, and_true, true_and,
    and_false, false_and, Bool.true_and, Bool.and_true, Bool.false_and, Bool.and_false,
    List.cons_append, List.nil_append, List.singleton_append])

theorem check_part_exit_trailing (st : ExitExec.ExitState) (p q : ℚ)
    (strategy : ExitExec.ExitStrategy) (now : ℚ) :
    (ExitExec.check_part_exit st p q strategy now).1.trailingStop = st.trailingStop := by
  rw [ExitExec.check_part_exit]
  cases hpr : st.partRec with
  | none => rfl
  | some pr =>
    by_cases he : pr.executed
    · simp [he]
    · simp only [he, if_false, Bool.false_eq_true]
      split_ifs <;> rfl

theorem check_part_exit_type (st : ExitExec.ExitState) (p q : ℚ)
    (strategy : ExitExec.ExitStrategy) (now : ℚ) (hstrat : st.strategy = some strategy) :
    ((ExitExec.check_part_exit st p q strategy now).1.strategy).map
        (fun s => s.position_type) = some strategy.position_type := by
  rw [ExitExec.check_part_exit]
  cases hpr : st.partRec with
  | none => simp [hstrat]
  | some pr =>
    by_cases he : pr.executed
    · simp [he, hstrat]
    · simp only [he, if_false, Bool.false_eq_true]
      split_ifs <;> simp [hstrat]

theorem check_trailing_stop_type (st : ExitExec.ExitState) (p q : ℚ)
    (strat : ExitExec.ExitStrategy) (atr now : ℚ)
    (h : (st.strategy).map (fun s => s.position_type) = some strat.position_type) :
    ((ExitExec.check_trailing_stop st p q strat atr now).1.strategy).map
        (fun s => s.position_type) = some strat.position_type := by
  obtain ⟨os, ot, op⟩ := st
  rw [ExitExec.check_trailing_stop]
  split_ifs with h1 h2
  · exact h
  · cases ot with
    | none => exact h
    | some tl =>
      dsimp only at h ⊢
      by_cases hgt : p - strat.trailing_atr_multiplier * atr > tl <;>
        simp only [hgt, decide_True, decide_False, eq_self_iff_true, Bool.false_eq_true, if_true, if_false] <;>
        split_ifs <;> simp_all
  · cases ot with
    | none => exact h
    | some tl =>
      dsimp only at h ⊢
      by_cases hgt : p + strat.trailing_atr_multiplier * atr < tl <;>
        simp only [hgt, decide_True, decide_False, eq_self_iff_true, Bool.false_eq_true, if_true, if_false] <;>
        split_ifs <;> simp_all

theorem check_trailing_stop_mono_long (st : ExitExec.ExitState) (p q : ℚ)
    (strat : ExitExec.ExitStrategy) (atr now : ℚ) (hty : strat.position_type = "LONG")
    (v : ℚ) (hv : st.trailingStop = some v) :
    ∃ v2, (ExitExec.check_trailing_stop st p q strat atr now).1.trailingStop = some v2 ∧
      v ≤ v2 := by
  obtain ⟨os, ot, op⟩ := st
  dsimp only at hv
  subst hv
  rw [ExitExec.check_trailing_stop]
  by_cases he : strat.trailing_enabled = false
  · rw [if_pos he]
    exact ⟨v, rfl, le_rfl⟩
  · rw [if_neg he, if_pos hty]
    dsimp only
    by_cases hgt : p - strat.trailing_atr_multiplier * atr > v <;>
      simp only [hgt, decide_True, decide_False, eq_self_iff_true, Bool.false_eq_true, if_true, if_false]
    · split_ifs <;>
        exact ⟨p - strat.trailing_atr_multiplier * atr, rfl, le_of_lt hgt⟩
    · split_ifs <;> exact ⟨v, rfl, le_rfl⟩

theorem check_trailing_stop_mono_short (st : ExitExec.ExitState) (p q : ℚ)
    (strat : ExitExec.ExitStrategy) (atr now : ℚ) (hty : ¬(strat.position_type = "LONG"))
    (v : ℚ) (hv : st.trailingStop = some v) :
    ∃ v2, (ExitExec.check_trailing_stop st p q strat atr now).1.trailingStop = some v2 ∧
      v2 ≤ v := by
  obtain ⟨os, ot, op⟩ := st
  dsimp only at hv
  subst hv
  rw [ExitExec.check_trailing_stop]
  by_cases he : strat.trailing_enabled = false
  · rw [if_pos he]
    exact ⟨v, rfl, le_rfl⟩
  · rw [if_neg he, if_neg hty]
    dsimp only
    by_cases hgt : p + strat.trailing_atr_multiplier * atr < v <;>
      simp only [hgt, decide_True, decide_False, eq_self_iff_true, Bool.false_eq_true, if_true, if_false]
    · split_ifs <;>
        exact ⟨p + strat.trailing_atr_multiplier * atr, rfl, le_of_lt hgt⟩
    · split_ifs <;> exact ⟨v, rfl, le_rfl⟩

theorem tstep_type (st1 : ExitExec.ExitState) (p q a now : ℚ)
    (strategy : ExitExec.ExitStrategy) (cond : Bool) (ty : String)
    (h : (st1.strategy).map (fun s => s.position_type) = some ty) :
    (((if cond = true then
          ExitExec.check_trailing_stop st1 p q (st1.strategy.getD strategy) a now
        else (st1, none)).1.strategy).map (fun s => s.position_type)) = some ty := by
  cases cond with
  | false => simpa using h
  | true =>
    rw [if_pos rfl]
    obtain ⟨s1, hs1, hsty⟩ := Option.map_eq_some'.mp h
    have hg : st1.strategy.getD strategy = s1 := by rw [hs1]; rfl
    have h2 : (st1.strategy).map (fun s => s.position_type)
        = some (st1.strategy.getD strategy).position_type := by
      rw [hg, hsty]; exact h
    have h3 := check_trailing_stop_type st1 p q (st1.strategy.getD strategy) a now h2
    rw [h3, hg, hsty]

theorem tstep_mono_long (st1 : ExitExec.ExitState) (p q a now : ℚ)
    (strategy : ExitExec.ExitStrategy) (cond : Bool) (v : ℚ)
    (hty : (st1.strategy).map (fun s => s.position_type) = some "LONG")
    (hv : st1.trailingStop = some v) :
    ∃ v2, ((if cond = true then
          ExitExec.check_trailing_stop st1 p q (st1.strategy.getD strategy) a now
        else (st1, none)).1.trailingStop) = some v2 ∧ v ≤ v2 := by
  cases cond with
  | false => exact ⟨v, by simpa using hv, le_rfl⟩
  | true =>
    rw [if_pos rfl]
    obtain ⟨s1, hs1, hsty⟩ := Option.map_eq_some'.mp hty
    have hg : st1.strategy.getD strategy = s1 := by rw [hs1]; rfl
    exact check_trailing_stop_mono_long st1 p q (st1.strategy.getD strategy) a now
      (by rw [hg]; exact hsty) v hv

theorem tstep_mono_short (st1 : ExitExec.ExitState) (p q a now : ℚ)
    (strategy : ExitExec.ExitStrategy) (cond : Bool) (ty : String) (v : ℚ)
    (hty : (st1.strategy).map (fun s => s.position_type) = some ty)
    (hne : ¬ty = "LONG")
    (hv : st1.trailingStop = some v) :
    ∃ v2, ((if cond = true then
          ExitExec.check_trailing_stop st1 p q (st1.strategy.getD strategy) a now
        else (st1, none)).1.trailingStop) = some v2 ∧ v2 ≤ v := by
  cases cond with
  | false => exact ⟨v, by simpa using hv, le_rfl⟩
  | true =>
    rw [if_pos rfl]
    obtain ⟨s1, hs1, hsty⟩ := Option.map_eq_some'.mp hty
    have hg : st1.strategy.getD strategy = s1 := by rw [hs1]; rfl
    exact check_trailing_stop_mono_short st1 p q (st1.strategy.getD strategy) a now
      (by rw [hg, hsty]; exact hne) v hv

theorem evalStep_type (st : ExitExec.ExitState) (i : ℚ × ℚ × Option ℚ × ℚ) (ty : String)
    (h : (st.strategy).map (fun s => s.position_type) = some ty) :
    ((ExitExec.evalStep st i).strategy).map (fun s => s.position_type) = some ty := by
  rw [ExitExec.evalStep, ExitExec.check_exit_signals]
  cases hstrat : st.strategy with
  | none => rw [hstrat] at h; exact absurd h (by simp)
  | some strategy =>
    have hty0 : strategy.position_type = ty := by rw [hstrat] at h; simpa using h
    dsimp only
    cases hs1 : ExitExec.check_stop_loss strategy.symbol i.1 i.2.1 strategy i.2.2.2 with
    | some sl => exact h
    | none =>
      dsimp only
      cases hs2 : ExitExec.check_take_profit strategy.symbol i.1 i.2.1 strategy i.2.2.2 with
      | some tp => exact h
      | none =>
        dsimp only
        by_cases hpe : strategy.part_exit_enabled = true
        · rw [if_pos hpe]
          have h1 := check_part_exit_type st i.1 i.2.1 strategy i.2.2.2 hstrat
          rw [hty0] at h1
          exact tstep_type _ i.1 i.2.1 (i.2.2.1.getD 0) i.2.2.2 strategy _ ty h1
        · rw [if_neg hpe]
          exact tstep_type _ i.1 i.2.1 (i.2.2.1.getD 0) i.2.2.2 strategy _ ty h

theorem evalStep_trailing_long (st : ExitExec.ExitState) (i : ℚ × ℚ × Option ℚ × ℚ) (v : ℚ)
    (h : (st.strategy).map (fun s => s.position_type) = some "LONG")
    (hv : st.trailingStop = some v) :
    ∃ v2, (ExitExec.evalStep st i).trailingStop = some v2 ∧ v ≤ v2 := by
  rw [ExitExec.evalStep, ExitExec.check_exit_signals]
  cases hstrat : st.strategy with
  | none => exact ⟨v, hv, le_rfl⟩
  | some strategy =>
    have hty0 : strategy.position_type = "LONG" := by rw [hstrat] at h; simpa using h
    dsimp only
    cases hs1 : ExitExec.check_stop_loss strategy.symbol i.1 i.2.1 strategy i.2.2.2 with
    | some sl => exact ⟨v, hv, le_rfl⟩
    | none =>
      dsimp only
      cases hs2 : ExitExec.check_take_profit strategy.symbol i.1 i.2.1 strategy i.2.2.2 with
      | some tp => exact ⟨v, hv, le_rfl⟩
      | none =>
        dsimp only
        by_cases hpe : strategy.part_exit_enabled = true
        · rw [if_pos hpe]
          have h1 := check_part_exit_type st i.1 i.2.1 strategy i.2.2.2 hstrat
          rw [hty0] at h1
          have hv1 : (ExitExec.check_part_exit st i.1 i.2.1 strategy i.2.2.2).1.trailingStop
              = some v := by rw [check_part_exit_trailing]; exact hv
          exact tstep_mono_long _ i.1 i.2.1 (i.2.2.1.getD 0) i.2.2.2 strategy _ v h1 hv1
        · rw [if_neg hpe]
          exact tstep_mono_long _ i.1 i.2.1 (i.2.2.1.getD 0) i.2.2.2 strategy _ v h hv

theorem evalStep_trailing_short (st : ExitExec.ExitState) (i : ℚ × ℚ × Option ℚ × ℚ)
    (ty : String) (v : ℚ)
    (h : (st.strategy).map (fun s => s.position_type) = some ty) (hne : ¬ty = "LONG")
    (hv : st.trailingStop = some v) :
    ∃ v2, (ExitExec.evalStep st i).trailingStop = some v2 ∧ v2 ≤ v := by
  rw [ExitExec.evalStep, ExitExec.check_exit_signals]
  cases hstrat : st.strategy with
  | none => exact ⟨v, hv, le_rfl⟩
  | some strategy =>
    have hty0 : strategy.position_type = ty := by rw [hstrat] at h; simpa using h
    dsimp only
    cases hs1 : ExitExec.check_stop_loss strategy.symbol i.1 i.2.1 strategy i.2.2.2 with
    | some sl => exact ⟨v, hv, le_rfl⟩
    | none =>
      dsimp only
      cases hs2 : ExitExec.check_take_profit strategy.symbol i.1 i.2.1 strategy i.2.2.2 with
      | some tp => exact ⟨v, hv, le_rfl⟩
      | none =>
        dsimp only
        by_cases hpe : strategy.part_exit_enabled = true
        · rw [if_pos hpe]
          have h1 := check_part_exit_type st i.1 i.2.1 strategy i.2.2.2 hstrat
          rw [hty0] at h1
          have hv1 : (ExitExec.check_part_exit st i.1 i.2.1 strategy i.2.2.2).1.trailingStop
              = some v := by rw [check_part_exit_trailing]; exact hv
          exact tstep_mono_short _ i.1 i.2.1 (i.2.2.1.getD 0) i.2.2.2 strategy _ ty v h1 hne hv1
        · rw [if_neg hpe]
          exact tstep_mono_short _ i.1 i.2.1 (i.2.2.1.getD 0) i.2.2.2 strategy _ ty v h hne hv

/-- C7: once a trailing level is stored, folding any sequence of exit
evaluations (price, quantity, ATR, time tuples) through
ExitManager.check_exit_signals keeps the trailing stop set, and the level is
monotonically non-decreasing for a LONG position and non-increasing for any
other (short) position type. -/
theorem C7_trailing_monotone (inputs : List (ℚ × ℚ × Option ℚ × ℚ))
    (st : ExitExec.ExitState) (ty : String) (v : ℚ)
    (hty : (st.strategy).map (fun s => s.position_type) = some ty)
    (hv : st.trailingStop = some v) :
    ∃ v2, (List.foldl ExitExec.evalStep st inputs).trailingStop = some v2 ∧
      (ty = "LONG" → v ≤ v2) ∧ (¬ty = "LONG" → v2 ≤ v) := by
  induction inputs generalizing st v with
  | nil => exact ⟨v, hv, fun _ => le_rfl, fun _ => le_rfl⟩
  | cons i rest ih =>
    by_cases hL : ty = "LONG"
    · subst hL
      obtain ⟨v1, hv1, hle⟩ := evalStep_trailing_long st i v hty hv
      obtain ⟨v2, hv2, f, g⟩ :=
        ih (ExitExec.evalStep st i) v1 (evalStep_type st i _ hty) hv1
      exact ⟨v2, hv2, fun _ => le_trans hle (f rfl), fun hne => absurd rfl hne⟩
    · obtain ⟨v1, hv1, hle⟩ := evalStep_trailing_short st i ty v hty hL hv
      obtain ⟨v2, hv2, f, g⟩ :=
        ih (ExitExec.evalStep st i) v1 (evalStep_type st i ty hty) hv1
      exact ⟨v2, hv2, fun hEq => absurd hEq hL, fun _ => le_trans (g hL) hle⟩

theorem C7_trailing_monotone_witness :
    ∃ v2, (List.foldl ExitExec.evalStep
        (ExitExec.create_exit_strategy "BTCUSDT" "LONG" 100 95 200 true 0)
        [(120, 2, some 1, 0), (100, 2, some 1, 0)]).trailingStop = some v2 ∧
      ("LONG" = "LONG" → (95:ℚ) ≤ v2) ∧ (¬("LONG" = "LONG") → v2 ≤ 95) :=
  C7_trailing_monotone [(120, 2, some 1, 0), (100, 2, some 1, 0)]
    (ExitExec.create_exit_strategy "BTCUSDT" "LONG" 100 95 200 true 0) "LONG" 95 rfl rfl
